import Mathlib

/-!
# Verification development for `public/front/client.js`

The file embeds the two classes of the browser client, `WebSocketClient` (the
generic event multiplexer) and `SlskWebSocketClient` (the domain message router),
together with the four record classes `TrackInfo`, `SearchResponse`,
`TrackDownloadInfo` and `WsError`.

Modelling conventions.

* A JavaScript value is a `JsVal`.  Numbers are carried as rationals: the program
  only compares `msg_type` with the constants `1 .. 4` by `===` and otherwise copies
  numbers, so no arithmetic on them is ever performed.
* An object is the list of its own properties.  A parsed JSON object has each key
  once; `JsVal.getProp` reads the first entry under a key.
* A method that can throw returns the thrown value next to its other results, so
  that the state after a failed call can be inspected.
* A handler is a function object: it has an identity (`tag`) and, when invoked
  with an argument, either returns normally or throws.  Handlers are assumed not to
  touch the client objects themselves.
* Everything observable that a dispatch does is collected in a list of `Effect`s,
  in the order in which it happens.
* `JSON.parse`, `JSON.stringify` and the `WebSocket` object belong to the host and
  are described by `Host` and `WebSocket`.
-/

namespace SlskFront

/-! ## Host values -/

/-- JavaScript values that the client reads, stores and passes on. -/
inductive JsVal where
  | undefined
  | null
  | bool (b : Bool)
  | num (n : Rat)
  | str (s : String)
  | arr (items : List JsVal)
  | obj (props : List (String × JsVal))

/-- Values that can be thrown. -/
inductive Exn where
  /-- The `SyntaxError` of `JSON.parse`. -/
  | invalidJson
  /-- A `TypeError`: a property read on `null` or `undefined`, or a call of something
  that is not a function. -/
  | typeError
  /-- An object made by `new Error(message)`. -/
  | error (message : String)
  /-- Any other thrown value. -/
  | value (v : JsVal)

/-- The two host functions of the `JSON` object.  `parse` answers `none` where
`JSON.parse` throws its `SyntaxError`. -/
structure Host where
  parse : String → Option JsVal
  stringify : JsVal → String

/-- The property read `v.key`, for a key that no built-in prototype defines (every
key read by the client is such a key).  It throws on `undefined` and `null`, gives the
own property of an object, and `undefined` in every other case. -/
def JsVal.getProp (v : JsVal) (key : String) : Except Exn JsVal :=
  match v with
  | .undefined => .error .typeError
  | .null => .error .typeError
  | .obj props => .ok ((props.lookup key).getD .undefined)
  | _ => .ok .undefined

/-- The comparison `v === k` against a number constant `k`. -/
def JsVal.strictEqNum (v : JsVal) (k : Rat) : Bool :=
  match v with
  | .num n => decide (n = k)
  | _ => false

/-- The loop of `Array.prototype.map` with a callback that can throw: elements are
visited from the left, and the first exception ends the loop. -/
def arrayMap {β : Type} (f : JsVal → Except Exn β) : List JsVal → Except Exn (List β)
  | [] => .ok []
  | x :: xs =>
    match f x with
    | .error e => .error e
    | .ok y =>
      match arrayMap f xs with
      | .error e => .error e
      | .ok ys => .ok (y :: ys)

/-- The call `v.map(f)`: it succeeds on arrays only; on `undefined` and `null` the
property read throws, on every other value `map` is not a function. -/
def JsVal.map {β : Type} (v : JsVal) (f : JsVal → Except Exn β) : Except Exn (List β) :=
  match v with
  | .arr items => arrayMap f items
  | _ => .error .typeError

/-! ## Records -/

/-- Instances of class `TrackInfo`. -/
structure TrackInfo where
  Id : JsVal
  ticket : JsVal
  username : JsVal
  filename : JsVal
  fullpath : JsVal
  extension : JsVal
  filesize : JsVal
  attributes : JsVal
  bitrate : JsVal
  sample_rate : JsVal
  bit_depth : JsVal
  duration : JsVal

/-- The static method `TrackInfo.fromJson`. -/
def TrackInfo.fromJson (d : JsVal) : Except Exn TrackInfo := do
  let Id ← d.getProp "Id"
  let ticket ← d.getProp "ticket"
  let username ← d.getProp "username"
  let filename ← d.getProp "filename"
  let fullpath ← d.getProp "fullpath"
  let extension ← d.getProp "extension"
  let filesize ← d.getProp "filesize"
  let attributes ← d.getProp "attributes"
  let bitrate ← d.getProp "bitrate"
  let sample_rate ← d.getProp "sample_rate"
  let bit_depth ← d.getProp "bit_depth"
  let duration ← d.getProp "duration"
  pure ⟨Id, ticket, username, filename, fullpath, extension, filesize, attributes,
    bitrate, sample_rate, bit_depth, duration⟩

/-- Instances of class `SearchResponse`. -/
structure SearchResponse where
  Id : JsVal
  query : JsVal
  ticket : JsVal
  total_results : JsVal
  current_results : JsVal
  resultset : List TrackInfo

/-- The static method `SearchResponse.fromJson`. -/
def SearchResponse.fromJson (d : JsVal) : Except Exn SearchResponse := do
  let Id ← d.getProp "Id"
  let query ← d.getProp "query"
  let ticket ← d.getProp "ticket"
  let total_results ← d.getProp "total_results"
  let current_results ← d.getProp "current_results"
  let rs ← d.getProp "resultset"
  let resultset ← rs.map (fun trackInfo => TrackInfo.fromJson trackInfo)
  pure ⟨Id, query, ticket, total_results, current_results, resultset⟩

/-- Instances of class `TrackDownloadInfo`. -/
structure TrackDownloadInfo where
  ticket : JsVal
  username : JsVal
  filename : JsVal
  status : JsVal

/-- The static method `TrackDownloadInfo.fromJson`. -/
def TrackDownloadInfo.fromJson (d : JsVal) : Except Exn TrackDownloadInfo := do
  let ticket ← d.getProp "ticket"
  let username ← d.getProp "username"
  let filename ← d.getProp "filename"
  let status ← d.getProp "status"
  pure ⟨ticket, username, filename, status⟩

/-- Instances of class `WsError`. -/
structure WsError where
  code : JsVal
  msg : JsVal
  fatal : JsVal

/-- The static method `WsError.fromJson`. -/
def WsError.fromJson (d : JsVal) : Except Exn WsError := do
  let code ← d.getProp "code"
  let msg ← d.getProp "msg"
  let fatal ← d.getProp "fatal"
  pure ⟨code, msg, fatal⟩

/-! ## Handlers and what a dispatch does -/

/-- The `MessageEvent` of the host, of which the client reads `data` only. -/
structure MessageEvent where
  data : String

/-- What a handler can be invoked with. -/
inductive Arg where
  /-- No argument (the `open` and `close` events). -/
  | undefined
  /-- The event object of an inbound message. -/
  | messageEvent (event : MessageEvent)
  /-- The event object of a transport error; it has no `data` property. -/
  | errorEvent (code : Nat)
  | trackInfo (r : TrackInfo)
  | searchResponse (r : SearchResponse)
  | trackDownloadInfo (r : TrackDownloadInfo)
  | wsError (r : WsError)

/-- Observable steps of a dispatch. -/
inductive Effect where
  /-- The handler with identity `handler` was called with `arg`. -/
  | invoked (handler : Nat) (arg : Arg)
  /-- The call `console.error(e)`. -/
  | logged (e : Exn)

/-- The course of a piece of code: what it did, and the exception it ended with,
if any. -/
structure Run where
  effects : List Effect
  thrown : Option Exn

/-- Normal completion without any effect. -/
def Run.done : Run := ⟨[], none⟩

/-- The statement `throw e`. -/
def Run.throw (e : Exn) : Run := ⟨[], some e⟩

/-- Evaluate an expression that can throw, then continue with its value. -/
def Run.eval {α : Type} (x : Except Exn α) (k : α → Run) : Run :=
  match x with
  | .error e => Run.throw e
  | .ok a => k a

/-- The block `try { r } catch (e) { console.error(e); }`. -/
def Run.catchLog (r : Run) : Run :=
  match r.thrown with
  | some e => ⟨r.effects ++ [Effect.logged e], none⟩
  | none => r

/-- A function passed as a handler: `tag` is its identity, `run arg` is `none` when
the call with `arg` returns and `some e` when it throws `e`. -/
structure Handler where
  tag : Nat
  run : Arg → Option Exn

/-- The call `handler(data)`. -/
def Handler.call (handler : Handler) (data : Arg) : Run :=
  ⟨[Effect.invoked handler.tag data], handler.run data⟩

/-- The loop of `Array.prototype.forEach`: the callback is applied to the elements
from the left, and an exception of the callback ends the loop and propagates. -/
def forEach {H : Type} (call : H → Run) : List H → Run
  | [] => Run.done
  | h :: hs =>
    let r := call h
    match r.thrown with
    | some e => ⟨r.effects, some e⟩
    | none =>
      let rest := forEach call hs
      ⟨r.effects ++ rest.effects, rest.thrown⟩

/-- The read `table[key]` on an object whose values are arrays. -/
def tableGet {β : Type} (table : List (String × β)) (key : String) : Option β :=
  table.lookup key

/-- The write `table[key] = v`. -/
def tableSet {β : Type} : List (String × β) → String → β → List (String × β)
  | [], key, v => [(key, v)]
  | (k, w) :: rest, key, v =>
    if k = key then (key, v) :: rest else (k, w) :: tableSet rest key v

/-- The statements
`if (!table[event]) { table[event] = []; }  table[event].push(handler);`. -/
def tablePush {β : Type} (table : List (String × List β)) (event : String) (handler : β) :
    List (String × List β) :=
  tableSet table event ((tableGet table event).getD [] ++ [handler])

/-- The own keys of an object, as `Object.keys` lists them. -/
def tableKeys {β : Type} (table : List (String × β)) : List String :=
  table.map Prod.fst

/-- The own values of an object, as `Object.values` lists them. -/
def tableValues {β : Type} (table : List (String × β)) : List β :=
  table.map Prod.snd

/-! ## The transport -/

/-- The `WebSocket` object of the host, as far as the client uses it: the state,
the texts handed to `send` so far, and the number of calls of `close`. -/
structure WebSocket where
  url : String
  readyState : Nat
  sent : List String
  closeCalls : Nat

/-- The constant `WebSocket.CONNECTING`. -/
def WebSocket.CONNECTING : Nat := 0

/-- The constant `WebSocket.OPEN`. -/
def WebSocket.OPEN : Nat := 1

/-- The constant `WebSocket.CLOSING`. -/
def WebSocket.CLOSING : Nat := 2

/-- The constant `WebSocket.CLOSED`. -/
def WebSocket.CLOSED : Nat := 3

/-- The expression `new WebSocket(url)`: a socket that is still connecting. -/
def WebSocket.create (url : String) : WebSocket :=
  ⟨url, WebSocket.CONNECTING, [], 0⟩

/-- The method `send` on an open socket: the text is queued. -/
def WebSocket.send (ws : WebSocket) (text : String) : WebSocket :=
  { ws with sent := ws.sent ++ [text] }

/-- The method `close`: a socket that is not yet closing or closed starts closing. -/
def WebSocket.close (ws : WebSocket) : WebSocket :=
  { ws with
    readyState :=
      if ws.readyState = WebSocket.CLOSING ∨ ws.readyState = WebSocket.CLOSED then ws.readyState
      else WebSocket.CLOSING
    closeCalls := ws.closeCalls + 1 }

/-! ## The class `WebSocketClient` -/

/-- What can sit in the handler arrays of a `WebSocketClient`: a function of the
application, or the bound method `this._onMessage.bind(this)` that the constructor
of `SlskWebSocketClient` registers. -/
inductive Listener where
  | fn (handler : Handler)
  | boundOnMessage

/-- The call `handler(data)` of a listener; `bound` is what the bound method does. -/
def Listener.call (bound : Arg → Run) (handler : Listener) (data : Arg) : Run :=
  match handler with
  | .fn h => h.call data
  | .boundOnMessage => bound data

/-- Instances of class `WebSocketClient`. -/
structure WebSocketClient where
  url : String
  websocket : Option WebSocket
  eventHandlers : List (String × List Listener)

/-- The static field `WebSocketClient.Events`. -/
def WebSocketClient.Events : List (String × String) :=
  [("OPEN", "open"), ("MESSAGE", "message"), ("CLOSE", "close"), ("ERROR", "error")]

/-- The constant `WebSocketClient.Events.OPEN`. -/
def WebSocketClient.Events.OPEN : String := "open"

/-- The constant `WebSocketClient.Events.MESSAGE`. -/
def WebSocketClient.Events.MESSAGE : String := "message"

/-- The constant `WebSocketClient.Events.CLOSE`. -/
def WebSocketClient.Events.CLOSE : String := "close"

/-- The constant `WebSocketClient.Events.ERROR`. -/
def WebSocketClient.Events.ERROR : String := "error"

/-- The constructor of `WebSocketClient`. -/
def WebSocketClient.constructor (url : String) : WebSocketClient :=
  { url := url, websocket := none, eventHandlers := [] }

/-- The method `WebSocketClient.connect`; the four callbacks it installs are
`onopen`, `onmessage`, `onclose` and `onerror` below. -/
def WebSocketClient.connect (c : WebSocketClient) : WebSocketClient :=
  { c with websocket := some (WebSocket.create c.url) }

/-- The method `WebSocketClient.sendMessage`: the client after the call, and the
exception thrown, if any. -/
def WebSocketClient.sendMessage (host : Host) (c : WebSocketClient) (message : JsVal) :
    WebSocketClient × Option Exn :=
  match c.websocket with
  | some ws =>
    if ws.readyState = WebSocket.OPEN then
      ({ c with websocket := some (ws.send (host.stringify message)) }, none)
    else
      (c, some (Exn.error "WebSocket is not open"))
  | none => (c, some (Exn.error "WebSocket is not open"))

/-- The method `WebSocketClient.close`. -/
def WebSocketClient.close (c : WebSocketClient) : WebSocketClient :=
  match c.websocket with
  | some ws => { c with websocket := some ws.close }
  | none => c

/-- The method `WebSocketClient.on`: the client after the call, and the exception
thrown, if any. -/
def WebSocketClient.on (c : WebSocketClient) (event : String) (handler : Listener) :
    WebSocketClient × Option Exn :=
  if !((tableValues WebSocketClient.Events).contains event) then
    (c, some (Exn.error ("Unknown event: " ++ event)))
  else
    ({ c with eventHandlers := tablePush c.eventHandlers event handler }, none)

/-- The method `WebSocketClient._triggerEvent`. -/
def WebSocketClient._triggerEvent (bound : Arg → Run) (c : WebSocketClient)
    (event : String) (data : Arg) : Run :=
  match tableGet c.eventHandlers event with
  | some handlers => forEach (fun handler => handler.call bound data) handlers
  | none => Run.done

/-- The callback `websocket.onopen` installed by `connect`. -/
def WebSocketClient.onopen (bound : Arg → Run) (c : WebSocketClient) : Run :=
  c._triggerEvent bound WebSocketClient.Events.OPEN Arg.undefined

/-- The callback `websocket.onmessage` installed by `connect`. -/
def WebSocketClient.onmessage (bound : Arg → Run) (c : WebSocketClient)
    (event : MessageEvent) : Run :=
  c._triggerEvent bound WebSocketClient.Events.MESSAGE (Arg.messageEvent event)

/-- The callback `websocket.onclose` installed by `connect`. -/
def WebSocketClient.onclose (bound : Arg → Run) (c : WebSocketClient) : Run :=
  c._triggerEvent bound WebSocketClient.Events.CLOSE Arg.undefined

/-- The callback `websocket.onerror` installed by `connect`. -/
def WebSocketClient.onerror (bound : Arg → Run) (c : WebSocketClient) (error : Arg) : Run :=
  c._triggerEvent bound WebSocketClient.Events.ERROR error

/-! ## The class `SlskWebSocketClient` -/

/-- Instances of class `SlskWebSocketClient`. -/
structure SlskWebSocketClient where
  websocketClient : WebSocketClient
  eventHandlers : List (String × List Handler)

/-- The constant `ClientMessageTypes.SEARCH_REQUEST`. -/
def SlskWebSocketClient.ClientMessageTypes.SEARCH_REQUEST : Rat := 1

/-- The constant `ClientMessageTypes.TRACK_DOWNLOAD_REQUEST`. -/
def SlskWebSocketClient.ClientMessageTypes.TRACK_DOWNLOAD_REQUEST : Rat := 2

/-- The constant `ServerMessageTypes.SERVER_MESSAGE_TYPES`. -/
def SlskWebSocketClient.ServerMessageTypes.SERVER_MESSAGE_TYPES : Rat := 0

/-- The constant `ServerMessageTypes.TRACK_INFO`. -/
def SlskWebSocketClient.ServerMessageTypes.TRACK_INFO : Rat := 1

/-- The constant `ServerMessageTypes.SEARCH_RESPONSE`. -/
def SlskWebSocketClient.ServerMessageTypes.SEARCH_RESPONSE : Rat := 2

/-- The constant `ServerMessageTypes.TRACK_DOWNLOAD_RESPONSE`. -/
def SlskWebSocketClient.ServerMessageTypes.TRACK_DOWNLOAD_RESPONSE : Rat := 3

/-- The constant `ServerMessageTypes.ERROR`. -/
def SlskWebSocketClient.ServerMessageTypes.ERROR : Rat := 4

/-- The constructor of `SlskWebSocketClient`. -/
def SlskWebSocketClient.constructor (url : String) : SlskWebSocketClient :=
  { websocketClient :=
      ((WebSocketClient.constructor url).on WebSocketClient.Events.MESSAGE
        Listener.boundOnMessage).1
    eventHandlers :=
      [("searchResponse", []), ("trackInfo", []), ("trackDownloadResponse", []),
        ("slskError", [])] }

/-- The method `SlskWebSocketClient.connect`. -/
def SlskWebSocketClient.connect (s : SlskWebSocketClient) : SlskWebSocketClient :=
  { s with websocketClient := s.websocketClient.connect }

/-- The method `SlskWebSocketClient.close`. -/
def SlskWebSocketClient.close (s : SlskWebSocketClient) : SlskWebSocketClient :=
  { s with websocketClient := s.websocketClient.close }

/-- The method `SlskWebSocketClient.sendSearchRequest`. -/
def SlskWebSocketClient.sendSearchRequest (host : Host) (s : SlskWebSocketClient)
    (query : JsVal) : SlskWebSocketClient × Option Exn :=
  let message := JsVal.obj
    [("msg_type", JsVal.num SlskWebSocketClient.ClientMessageTypes.SEARCH_REQUEST),
      ("data", JsVal.obj [("query", query)])]
  let r := s.websocketClient.sendMessage host message
  ({ s with websocketClient := r.1 }, r.2)

/-- The method `SlskWebSocketClient.sendTrackDownloadRequest`. -/
def SlskWebSocketClient.sendTrackDownloadRequest (host : Host) (s : SlskWebSocketClient)
    (ticket username filename : JsVal) : SlskWebSocketClient × Option Exn :=
  let message := JsVal.obj
    [("msg_type", JsVal.num SlskWebSocketClient.ClientMessageTypes.TRACK_DOWNLOAD_REQUEST),
      ("data", JsVal.obj [("ticket", ticket), ("username", username), ("filename", filename)])]
  let r := s.websocketClient.sendMessage host message
  ({ s with websocketClient := r.1 }, r.2)

/-- The method `SlskWebSocketClient._triggerEvent`. -/
def SlskWebSocketClient._triggerEvent (s : SlskWebSocketClient) (event : String)
    (data : Arg) : Run :=
  match tableGet s.eventHandlers event with
  | some handlers => forEach (fun handler => handler.call data) handlers
  | none => Run.done

/-- The body of the `try` block of `SlskWebSocketClient._onMessage`, for the parsed
message `data`. -/
def SlskWebSocketClient.onMessageTry (s : SlskWebSocketClient) (data : JsVal) : Run :=
  Run.eval (data.getProp "msg_type") fun t1 =>
  if t1.strictEqNum SlskWebSocketClient.ServerMessageTypes.SEARCH_RESPONSE then
    Run.eval (data.getProp "data") fun d =>
    Run.eval (SearchResponse.fromJson d) fun searchResponse =>
    s._triggerEvent "searchResponse" (Arg.searchResponse searchResponse)
  else
  Run.eval (data.getProp "msg_type") fun t2 =>
  if t2.strictEqNum SlskWebSocketClient.ServerMessageTypes.TRACK_INFO then
    Run.eval (data.getProp "data") fun d =>
    Run.eval (TrackInfo.fromJson d) fun trackInfo =>
    s._triggerEvent "trackInfo" (Arg.trackInfo trackInfo)
  else
  Run.eval (data.getProp "msg_type") fun t3 =>
  if t3.strictEqNum SlskWebSocketClient.ServerMessageTypes.TRACK_DOWNLOAD_RESPONSE then
    Run.eval (data.getProp "data") fun d =>
    Run.eval (TrackDownloadInfo.fromJson d) fun trackDownloadInfo =>
    s._triggerEvent "trackDownloadResponse" (Arg.trackDownloadInfo trackDownloadInfo)
  else
  Run.eval (data.getProp "msg_type") fun t4 =>
  if t4.strictEqNum SlskWebSocketClient.ServerMessageTypes.ERROR then
    Run.eval (data.getProp "data") fun d =>
    Run.eval (WsError.fromJson d) fun wserror =>
    s._triggerEvent "slskError" (Arg.wsError wserror)
  else
    Run.done

/-- The method `SlskWebSocketClient._onMessage`.  The first two statements,
`const s = event.data; const data = JSON.parse(s);`, stand before the `try` block:
reading `data` of `undefined` throws, an event object without `data` gives
`JSON.parse(undefined)`, which throws like any text that is not JSON. -/
def SlskWebSocketClient._onMessage (host : Host) (s : SlskWebSocketClient)
    (event : Arg) : Run :=
  match event with
  | .undefined => Run.throw Exn.typeError
  | .messageEvent ev =>
    match host.parse ev.data with
    | none => Run.throw Exn.invalidJson
    | some data => Run.catchLog (s.onMessageTry data)
  | _ => Run.throw Exn.invalidJson

/-- The method `SlskWebSocketClient.on`: the client after the call, and the
exception thrown, if any. -/
def SlskWebSocketClient.on (s : SlskWebSocketClient) (event : String) (handler : Handler) :
    SlskWebSocketClient × Option Exn :=
  if !((tableKeys s.eventHandlers).contains event) then
    (s, some (Exn.error ("Unknown event: " ++ event)))
  else
    ({ s with eventHandlers := tablePush s.eventHandlers event handler }, none)

/-- The method `SlskWebSocketClient.onSearchResponse`. -/
def SlskWebSocketClient.onSearchResponse (s : SlskWebSocketClient) (handler : Handler) :
    SlskWebSocketClient × Option Exn :=
  s.on "searchResponse" handler

/-- The method `SlskWebSocketClient.onTrackInfo`. -/
def SlskWebSocketClient.onTrackInfo (s : SlskWebSocketClient) (handler : Handler) :
    SlskWebSocketClient × Option Exn :=
  s.on "trackInfo" handler

/-- The method `SlskWebSocketClient.onTrackDownloadResponse`. -/
def SlskWebSocketClient.onTrackDownloadResponse (s : SlskWebSocketClient)
    (handler : Handler) : SlskWebSocketClient × Option Exn :=
  s.on "trackDownloadResponse" handler

/-- The method `SlskWebSocketClient.onError`. -/
def SlskWebSocketClient.onError (s : SlskWebSocketClient) (handler : Handler) :
    SlskWebSocketClient × Option Exn :=
  s.on "slskError" handler

/-- A notification of the transport for the event `event` with payload `data`,
delivered through the multiplexer that the router owns. -/
def SlskWebSocketClient.notify (host : Host) (s : SlskWebSocketClient) (event : String)
    (data : Arg) : Run :=
  s.websocketClient._triggerEvent (s._onMessage host) event data

/-! ## Calls that carry the client along

The embedding above takes handlers that leave the client alone.  The functions of
this section follow the same code and carry the client along, so that handlers which
change it can be described too: `mutate tag arg s` is the client after the handler
with identity `tag` was called with `arg` on the client `s`. -/

/-- The call `close()` as a step: the client after the call, and the course of the
call.  The body calls `websocket.close()` at most, which starts the closure and
returns; the closure itself is notified later, through `onclose`. -/
def WebSocketClient.closeStep (c : WebSocketClient) : WebSocketClient × Run :=
  (c.close, Run.done)

/-- What the calls of the handlers do to the client. -/
abbrev Mutation : Type := Nat → Arg → SlskWebSocketClient → SlskWebSocketClient

/-- The loop of `Array.prototype.forEach` over the handlers in `handlers`, each call
changing the client as `mutate` says. -/
def forEachOn (mutate : Mutation) (data : Arg) :
    List Handler → SlskWebSocketClient → SlskWebSocketClient × Run
  | [], s => (s, Run.done)
  | handler :: rest, s =>
    let s1 := mutate handler.tag data s
    match handler.run data with
    | some e => (s1, ⟨[Effect.invoked handler.tag data], some e⟩)
    | none =>
      let r := forEachOn mutate data rest s1
      (r.1, ⟨Effect.invoked handler.tag data :: r.2.effects, r.2.thrown⟩)

/-- The method `SlskWebSocketClient._triggerEvent`, with the client carried along. -/
def SlskWebSocketClient.triggerEventOn (mutate : Mutation) (s : SlskWebSocketClient)
    (event : String) (data : Arg) : SlskWebSocketClient × Run :=
  match tableGet s.eventHandlers event with
  | some handlers => forEachOn mutate data handlers s
  | none => (s, Run.done)

/-- Evaluate an expression that can throw, then continue with its value; the
evaluation itself does not change the client. -/
def evalOn {α : Type} (s : SlskWebSocketClient) (x : Except Exn α)
    (k : α → SlskWebSocketClient × Run) : SlskWebSocketClient × Run :=
  match x with
  | .error e => (s, Run.throw e)
  | .ok a => k a

/-- The body of the `try` block of `SlskWebSocketClient._onMessage`, with the client
carried along. -/
def SlskWebSocketClient.onMessageTryOn (mutate : Mutation) (s : SlskWebSocketClient)
    (data : JsVal) : SlskWebSocketClient × Run :=
  evalOn s (data.getProp "msg_type") fun t1 =>
  if t1.strictEqNum SlskWebSocketClient.ServerMessageTypes.SEARCH_RESPONSE then
    evalOn s (data.getProp "data") fun d =>
    evalOn s (SearchResponse.fromJson d) fun searchResponse =>
    s.triggerEventOn mutate "searchResponse" (Arg.searchResponse searchResponse)
  else
  evalOn s (data.getProp "msg_type") fun t2 =>
  if t2.strictEqNum SlskWebSocketClient.ServerMessageTypes.TRACK_INFO then
    evalOn s (data.getProp "data") fun d =>
    evalOn s (TrackInfo.fromJson d) fun trackInfo =>
    s.triggerEventOn mutate "trackInfo" (Arg.trackInfo trackInfo)
  else
  evalOn s (data.getProp "msg_type") fun t3 =>
  if t3.strictEqNum SlskWebSocketClient.ServerMessageTypes.TRACK_DOWNLOAD_RESPONSE then
    evalOn s (data.getProp "data") fun d =>
    evalOn s (TrackDownloadInfo.fromJson d) fun trackDownloadInfo =>
    s.triggerEventOn mutate "trackDownloadResponse" (Arg.trackDownloadInfo trackDownloadInfo)
  else
  evalOn s (data.getProp "msg_type") fun t4 =>
  if t4.strictEqNum SlskWebSocketClient.ServerMessageTypes.ERROR then
    evalOn s (data.getProp "data") fun d =>
    evalOn s (WsError.fromJson d) fun wserror =>
    s.triggerEventOn mutate "slskError" (Arg.wsError wserror)
  else
    (s, Run.done)

/-- The method `SlskWebSocketClient._onMessage`, with the client carried along: the
client after the call, and the course of the call. -/
def SlskWebSocketClient.onMessageOn (host : Host) (mutate : Mutation)
    (s : SlskWebSocketClient) (event : Arg) : SlskWebSocketClient × Run :=
  match event with
  | .undefined => (s, Run.throw Exn.typeError)
  | .messageEvent ev =>
    match host.parse ev.data with
    | none => (s, Run.throw Exn.invalidJson)
    | some data =>
      let r := s.onMessageTryOn mutate data
      (r.1, Run.catchLog r.2)
  | _ => (s, Run.throw Exn.invalidJson)

/-! ## Vocabulary of the claims -/

/-- The four kinds of inbound message that the decode step recognises. -/
inductive Inbound where
  | trackInfo
  | searchResponse
  | trackDownloadResponse
  | error

/-- The `msg_type` that the wire protocol gives to each kind of inbound message. -/
def Inbound.msgType : Inbound → Rat
  | .trackInfo => 1
  | .searchResponse => 2
  | .trackDownloadResponse => 3
  | .error => 4

/-- The subscriber list that each kind of inbound message is routed to. -/
def Inbound.listName : Inbound → String
  | .trackInfo => "trackInfo"
  | .searchResponse => "searchResponse"
  | .trackDownloadResponse => "trackDownloadResponse"
  | .error => "slskError"

/-- The record class whose `fromJson` decodes the `data` of each kind of message. -/
def Inbound.decode : Inbound → JsVal → Except Exn Arg
  | .trackInfo, d => (TrackInfo.fromJson d).map Arg.trackInfo
  | .searchResponse, d => (SearchResponse.fromJson d).map Arg.searchResponse
  | .trackDownloadResponse, d => (TrackDownloadInfo.fromJson d).map Arg.trackDownloadInfo
  | .error, d => (WsError.fromJson d).map Arg.wsError

/-- The handlers registered in the subscriber list `list`, in registration order. -/
def SlskWebSocketClient.subscribers (s : SlskWebSocketClient) (list : String) : List Handler :=
  (tableGet s.eventHandlers list).getD []

/-- One call of every handler of `handlers` with `data`, in the order of the list. -/
def fanOut (handlers : List Handler) (data : Arg) : List Effect :=
  handlers.map fun h => Effect.invoked h.tag data

/-- The twelve properties of a `TrackInfo`, each with the key it is read from. -/
def TrackInfo.fields : List (String × (TrackInfo → JsVal)) :=
  [("Id", TrackInfo.Id), ("ticket", TrackInfo.ticket), ("username", TrackInfo.username),
    ("filename", TrackInfo.filename), ("fullpath", TrackInfo.fullpath),
    ("extension", TrackInfo.extension), ("filesize", TrackInfo.filesize),
    ("attributes", TrackInfo.attributes), ("bitrate", TrackInfo.bitrate),
    ("sample_rate", TrackInfo.sample_rate), ("bit_depth", TrackInfo.bit_depth),
    ("duration", TrackInfo.duration)]

/-- The five scalar properties of a `SearchResponse`, each with its key. -/
def SearchResponse.fields : List (String × (SearchResponse → JsVal)) :=
  [("Id", SearchResponse.Id), ("query", SearchResponse.query),
    ("ticket", SearchResponse.ticket), ("total_results", SearchResponse.total_results),
    ("current_results", SearchResponse.current_results)]

/-- The four properties of a `TrackDownloadInfo`, each with its key. -/
def TrackDownloadInfo.fields : List (String × (TrackDownloadInfo → JsVal)) :=
  [("ticket", TrackDownloadInfo.ticket), ("username", TrackDownloadInfo.username),
    ("filename", TrackDownloadInfo.filename), ("status", TrackDownloadInfo.status)]

/-- The three properties of a `WsError`, each with its key. -/
def WsError.fields : List (String × (WsError → JsVal)) :=
  [("code", WsError.code), ("msg", WsError.msg), ("fatal", WsError.fatal)]

/-- Every property of the record `r` is the value that `d` has under the same key. -/
def TrackInfo.Mirrors (r : TrackInfo) (d : JsVal) : Prop :=
  ∀ kf ∈ TrackInfo.fields, d.getProp kf.1 = .ok (kf.2 r)

/-- Every scalar property of `r` is the value that `d` has under the same key, and
`r.resultset` lists, in the same order, the decoded elements of the array
`d.resultset`. -/
def SearchResponse.Mirrors (r : SearchResponse) (d : JsVal) : Prop :=
  (∀ kf ∈ SearchResponse.fields, d.getProp kf.1 = .ok (kf.2 r)) ∧
  ∃ items, d.getProp "resultset" = .ok (JsVal.arr items) ∧
    List.Forall₂ (fun x t => TrackInfo.fromJson x = .ok t ∧ t.Mirrors x) items r.resultset

/-- Every property of the record `r` is the value that `d` has under the same key. -/
def TrackDownloadInfo.Mirrors (r : TrackDownloadInfo) (d : JsVal) : Prop :=
  ∀ kf ∈ TrackDownloadInfo.fields, d.getProp kf.1 = .ok (kf.2 r)

/-- Every property of the record `r` is the value that `d` has under the same key. -/
def WsError.Mirrors (r : WsError) (d : JsVal) : Prop :=
  ∀ kf ∈ WsError.fields, d.getProp kf.1 = .ok (kf.2 r)

/-- The argument `a` is a record whose properties are those of `d`. -/
def Arg.Mirrors (a : Arg) (d : JsVal) : Prop :=
  match a with
  | .trackInfo r => r.Mirrors d
  | .searchResponse r => r.Mirrors d
  | .trackDownloadInfo r => r.Mirrors d
  | .wsError r => r.Mirrors d
  | _ => False

/-- The identities of the handlers that were called, in the order of the calls. -/
def invokedTags : List Effect → List Nat
  | [] => []
  | Effect.invoked t _ :: rest => t :: invokedTags rest
  | Effect.logged _ :: rest => invokedTags rest

/-- The names of the four lifecycle events of the multiplexer. -/
def lifecycleNames : List String := ["open", "message", "close", "error"]

/-- The names of the four subscriber lists of the router. -/
def subscriberListNames : List String :=
  ["searchResponse", "trackInfo", "trackDownloadResponse", "slskError"]

/-- The router has exactly the four subscriber lists that its constructor declares. -/
def SlskWebSocketClient.DeclaredLists (s : SlskWebSocketClient) : Prop :=
  tableKeys s.eventHandlers = subscriberListNames

/-- The envelope that `sendSearchRequest` is specified to write. -/
def searchRequestEnvelope (query : String) : JsVal :=
  JsVal.obj [("msg_type", JsVal.num 1), ("data", JsVal.obj [("query", JsVal.str query)])]

/-- The envelope that `sendTrackDownloadRequest` is specified to write. -/
def trackDownloadRequestEnvelope (ticket : Int) (username filename : String) : JsVal :=
  JsVal.obj
    [("msg_type", JsVal.num 2),
      ("data", JsVal.obj [("ticket", JsVal.num ticket), ("username", JsVal.str username),
        ("filename", JsVal.str filename)])]

/-- The router `s` after its socket `ws` has taken one more text. -/
def SlskWebSocketClient.afterWrite (s : SlskWebSocketClient) (ws : WebSocket) (text : String) :
    SlskWebSocketClient :=
  { s with
    websocketClient :=
      { s.websocketClient with websocket := some { ws with sent := ws.sent ++ [text] } } }

/-- The value is a JSON object. -/
def JsVal.isObject : JsVal → Bool
  | .obj _ => true
  | _ => false

/-- The value is `null` or `undefined`. -/
def JsVal.isNullish : JsVal → Bool
  | .null => true
  | .undefined => true
  | _ => false

/-- A notification of the transport: the socket opened, a message arrived, the
socket closed, or the socket reported an error. -/
inductive Notification where
  | opened
  | message (event : MessageEvent)
  | closed
  | errored (error : Arg)

/-- The lifecycle event that a notification stands for. -/
def Notification.eventName : Notification → String
  | .opened => "open"
  | .message _ => "message"
  | .closed => "close"
  | .errored _ => "error"

/-- The payload that a notification carries to the handlers. -/
def Notification.payload : Notification → Arg
  | .opened => Arg.undefined
  | .message event => Arg.messageEvent event
  | .closed => Arg.undefined
  | .errored error => error

/-- The transport delivers a notification: it calls the callback that `connect`
installed for it. -/
def WebSocketClient.deliver (bound : Arg → Run) (c : WebSocketClient) : Notification → Run
  | .opened => c.onopen bound
  | .message event => c.onmessage bound event
  | .closed => c.onclose bound
  | .errored error => c.onerror bound error

/-- A sequence of calls `on(event, handler)` with functions as handlers; a call that
throws is skipped over, as when the caller catches the exception. -/
def WebSocketClient.registerAll (c : WebSocketClient) : List (String × Handler) → WebSocketClient
  | [] => c
  | (event, handler) :: rest =>
    WebSocketClient.registerAll (c.on event (Listener.fn handler)).1 rest

/-- The handlers that a sequence of registrations names for the event `e`, in the
order of the registrations, with repetitions. -/
def registeredFor (regs : List (String × Handler)) (e : String) : List Handler :=
  (regs.filter fun p => decide (p.1 = e)).map Prod.snd

/-- The listeners that a multiplexer holds for `event`, in registration order. -/
def WebSocketClient.listeners (c : WebSocketClient) (event : String) : List Listener :=
  (tableGet c.eventHandlers event).getD []

/-- What the calls of the listeners `ls` with `data` do, one call for each element
of the list, in the order of the list. -/
def callsOf (bound : Arg → Run) (data : Arg) : List Listener → List Effect
  | [] => []
  | l :: ls => (l.call bound data).effects ++ callsOf bound data ls

/-- The router states that arise from the constructor by the public methods of the
router, by registrations on its multiplexer, and by changes that the host makes to
the socket. -/
inductive SlskWebSocketClient.Reachable : SlskWebSocketClient → Prop where
  | constructed (url : String) :
    SlskWebSocketClient.Reachable (SlskWebSocketClient.constructor url)
  | registered (s : SlskWebSocketClient) (event : String) (handler : Handler) :
    SlskWebSocketClient.Reachable s → SlskWebSocketClient.Reachable (s.on event handler).1
  | connected (s : SlskWebSocketClient) :
    SlskWebSocketClient.Reachable s → SlskWebSocketClient.Reachable s.connect
  | closed (s : SlskWebSocketClient) :
    SlskWebSocketClient.Reachable s → SlskWebSocketClient.Reachable s.close
  | searched (host : Host) (s : SlskWebSocketClient) (query : JsVal) :
    SlskWebSocketClient.Reachable s →
    SlskWebSocketClient.Reachable (s.sendSearchRequest host query).1
  | requested (host : Host) (s : SlskWebSocketClient) (ticket username filename : JsVal) :
    SlskWebSocketClient.Reachable s →
    SlskWebSocketClient.Reachable (s.sendTrackDownloadRequest host ticket username filename).1
  | listened (s : SlskWebSocketClient) (event : String) (listener : Listener) :
    SlskWebSocketClient.Reachable s →
    SlskWebSocketClient.Reachable
      { s with websocketClient := (s.websocketClient.on event listener).1 }
  | socketChanged (s : SlskWebSocketClient) (ws : WebSocket) :
    SlskWebSocketClient.Reachable s →
    SlskWebSocketClient.Reachable
      { s with websocketClient := { s.websocketClient with websocket := some ws } }

/-- The result `r` of a registration on the router `s`: no exception, `handler` is
the new last entry of the list `list`, the earlier entries of that list are as
before, every other list is as before, and so is the multiplexer. -/
def AppendsTo (list : String) (handler : Handler) (s : SlskWebSocketClient)
    (r : SlskWebSocketClient × Option Exn) : Prop :=
  r.2 = none
    ∧ r.1.subscribers list = s.subscribers list ++ [handler]
    ∧ (∀ other, other ≠ list → r.1.subscribers other = s.subscribers other)
    ∧ r.1.websocketClient = s.websocketClient

/-! ## Sample inputs -/

/-- A host of which one JSON text and its value are known: `parse` gives `v` on
`text` and rejects every other text, and `stringify` always writes `text`. -/
def sampleHost (text : String) (v : JsVal) : Host :=
  { parse := fun t => if t = text then some v else none
    stringify := fun _ => text }

/-- A handler that returns normally on every argument. -/
def quietHandler (tag : Nat) : Handler :=
  { tag := tag, run := fun _ => none }

/-- A handler that throws the string `boom` on every argument. -/
def throwingHandler (tag : Nat) : Handler :=
  { tag := tag, run := fun _ => some (Exn.value (JsVal.str "boom")) }

/-- A handler that reads `track.attributes.codec`: it throws a `TypeError` when
the record has no attributes, and returns on every other argument. -/
def attributeReader (tag : Nat) : Handler :=
  { tag := tag
    run := fun a =>
      match a with
      | .trackInfo r =>
        match r.attributes.getProp "codec" with
        | .error e => some e
        | .ok _ => none
      | _ => none }

/-- A nested track object with all twelve keys. -/
def sampleTrackJson : JsVal :=
  JsVal.obj
    [("Id", JsVal.str "t1"), ("ticket", JsVal.num 7), ("username", JsVal.str "peer"),
      ("filename", JsVal.str "a.flac"), ("fullpath", JsVal.str "music/a.flac"),
      ("extension", JsVal.str "flac"), ("filesize", JsVal.num 1024),
      ("attributes", JsVal.obj [("codec", JsVal.str "flac")]), ("bitrate", JsVal.num 900),
      ("sample_rate", JsVal.num 44100), ("bit_depth", JsVal.num 16),
      ("duration", JsVal.num 180)]

/-- The record that `sampleTrackJson` decodes to. -/
def sampleTrack : TrackInfo :=
  { Id := JsVal.str "t1", ticket := JsVal.num 7, username := JsVal.str "peer",
    filename := JsVal.str "a.flac", fullpath := JsVal.str "music/a.flac",
    extension := JsVal.str "flac", filesize := JsVal.num 1024,
    attributes := JsVal.obj [("codec", JsVal.str "flac")], bitrate := JsVal.num 900,
    sample_rate := JsVal.num 44100, bit_depth := JsVal.num 16, duration := JsVal.num 180 }

/-- The properties of the `data` of a search response with one result. -/
def sampleSearchProps : List (String × JsVal) :=
  [("Id", JsVal.str "x"), ("query", JsVal.str "foo"), ("ticket", JsVal.num 7),
    ("total_results", JsVal.num 2), ("current_results", JsVal.num 1),
    ("resultset", JsVal.arr [sampleTrackJson])]

/-- The `data` of a search response with one result. -/
def sampleSearchData : JsVal :=
  JsVal.obj sampleSearchProps

/-- The record that `sampleSearchData` decodes to. -/
def sampleSearchResponse : SearchResponse :=
  { Id := JsVal.str "x", query := JsVal.str "foo", ticket := JsVal.num 7,
    total_results := JsVal.num 2, current_results := JsVal.num 1,
    resultset := [sampleTrack] }

/-- The envelope of a `SEARCH_RESPONSE` message carrying `sampleSearchData`. -/
def sampleSearchEnvelope : JsVal :=
  JsVal.obj [("msg_type", JsVal.num 2), ("data", sampleSearchData)]

/-- The text of `sampleSearchEnvelope`. -/
def sampleSearchText : String :=
  "\x7b\"msg_type\":2,\"data\":\x7b\"Id\":\"x\",\"query\":\"foo\"," ++
    "\"ticket\":7,\"total_results\":2,\"current_results\":1," ++
    "\"resultset\":[\x7b\"Id\":\"t1\",\"ticket\":7,\"username\":\"peer\"," ++
    "\"filename\":\"a.flac\",\"fullpath\":\"music/a.flac\"," ++
    "\"extension\":\"flac\",\"filesize\":1024," ++
    "\"attributes\":\x7b\"codec\":\"flac\"\x7d,\"bitrate\":900," ++
    "\"sample_rate\":44100,\"bit_depth\":16,\"duration\":180\x7d]\x7d\x7d"

/-- A host that parses `sampleSearchText` to `sampleSearchEnvelope`. -/
def searchHost : Host :=
  sampleHost sampleSearchText sampleSearchEnvelope

/-- A router with two quiet subscribers for search responses. -/
def quietRouter : SlskWebSocketClient :=
  (((SlskWebSocketClient.constructor "ws://localhost").onSearchResponse (quietHandler 1)).1
    |>.onSearchResponse (quietHandler 2)).1

/-- A router whose first subscriber for search responses throws and whose second
one is quiet. -/
def throwingRouter : SlskWebSocketClient :=
  (((SlskWebSocketClient.constructor "ws://localhost").onSearchResponse (throwingHandler 1)).1
    |>.onSearchResponse (quietHandler 2)).1

/-- A text that breaks off in the middle of an object. -/
def truncatedText : String := "\x7b\"msg_type\":"

/-- The text of a `SEARCH_RESPONSE` envelope whose data has no `resultset`. -/
def noResultsetText : String := "\x7b\"msg_type\":2,\"data\":\x7b\"Id\":\"x\"\x7d\x7d"

/-- The value of `noResultsetText`. -/
def noResultsetEnvelope : JsVal :=
  JsVal.obj [("msg_type", JsVal.num 2), ("data", JsVal.obj [("Id", JsVal.str "x")])]

/-- The text of a `SEARCH_RESPONSE` envelope whose `resultset` holds `null`. -/
def nullElementText : String := "\x7b\"msg_type\":2,\"data\":\x7b\"resultset\":[null]\x7d\x7d"

/-- The value of `nullElementText`. -/
def nullElementEnvelope : JsVal :=
  JsVal.obj
    [("msg_type", JsVal.num 2), ("data", JsVal.obj [("resultset", JsVal.arr [JsVal.null])])]

/-- The text of an envelope with the unknown type `99`. -/
def type99Text : String := "\x7b\"msg_type\":99,\"data\":\x7b\x7d\x7d"

/-- The properties of the value of `type99Text`. -/
def type99Props : List (String × JsVal) :=
  [("msg_type", JsVal.num 99), ("data", JsVal.obj [])]

/-- The text of an envelope with the reserved type `0`. -/
def type0Text : String := "\x7b\"msg_type\":0,\"data\":\x7b\x7d\x7d"

/-- The properties of the value of `type0Text`. -/
def type0Props : List (String × JsVal) :=
  [("msg_type", JsVal.num 0), ("data", JsVal.obj [])]

/-- The text of an envelope without `msg_type`. -/
def noTypeText : String := "\x7b\"data\":\x7b\x7d\x7d"

/-- The properties of the value of `noTypeText`. -/
def noTypeProps : List (String × JsVal) :=
  [("data", JsVal.obj [])]

/-- The text of an envelope whose `msg_type` is the string `1`. -/
def stringTypeText : String := "\x7b\"msg_type\":\"1\",\"data\":\x7b\x7d\x7d"

/-- The properties of the value of `stringTypeText`. -/
def stringTypeProps : List (String × JsVal) :=
  [("msg_type", JsVal.str "1"), ("data", JsVal.obj [])]

/-- A router on which `connect` has not been called. -/
def freshRouter : SlskWebSocketClient :=
  SlskWebSocketClient.constructor "ws://localhost"

/-- A socket that has completed its handshake and has not sent anything yet. -/
def openSocket : WebSocket :=
  { WebSocket.create "ws://localhost" with readyState := WebSocket.OPEN }

/-- A router whose socket has completed its handshake. -/
def openRouter : SlskWebSocketClient :=
  { freshRouter with
    websocketClient := { freshRouter.websocketClient with websocket := some openSocket } }

/-- The text of the request `sendSearchRequest("foo")`. -/
def searchRequestText : String := "\x7b\"msg_type\":1,\"data\":\x7b\"query\":\"foo\"\x7d\x7d"

/-- The text of the request `sendTrackDownloadRequest(7, "peer", "a.flac")`. -/
def downloadRequestText : String :=
  "\x7b\"msg_type\":2,\"data\":\x7b\"ticket\":7,\"username\":\"peer\",\"filename\":\"a.flac\"\x7d\x7d"

/-- A host that knows the two request texts: `stringify` tells the two envelopes
apart by their `msg_type`. -/
def requestHost : Host :=
  { parse := fun t =>
      if t = searchRequestText then some (searchRequestEnvelope "foo")
      else if t = downloadRequestText then some (trackDownloadRequestEnvelope 7 "peer" "a.flac")
      else none
    stringify := fun v =>
      match v.getProp "msg_type" with
      | .ok t => if t.strictEqNum 1 then searchRequestText else downloadRequestText
      | .error _ => downloadRequestText }

/-- The text of an `ERROR` envelope with a fatal error. -/
def fatalErrorText : String :=
  "\x7b\"msg_type\":4,\"data\":\x7b\"code\":500,\"msg\":\"down\",\"fatal\":true\x7d\x7d"

/-- The `data` of `fatalErrorText`. -/
def fatalErrorData : JsVal :=
  JsVal.obj [("code", JsVal.num 500), ("msg", JsVal.str "down"), ("fatal", JsVal.bool true)]

/-- The value of `fatalErrorText`. -/
def fatalErrorEnvelope : JsVal :=
  JsVal.obj [("msg_type", JsVal.num 4), ("data", fatalErrorData)]

/-- The record that `fatalErrorData` decodes to. -/
def fatalError : WsError :=
  { code := JsVal.num 500, msg := JsVal.str "down", fatal := JsVal.bool true }

/-- A router whose only subscriber for server errors throws. -/
def failingErrorRouter : SlskWebSocketClient :=
  ((SlskWebSocketClient.constructor "ws://localhost").onError (throwingHandler 1)).1

/-- The `data` of a search response whose only result is the number `5`. -/
def numberElementData : JsVal :=
  JsVal.obj [("Id", JsVal.str "x"), ("resultset", JsVal.arr [JsVal.num 5])]

/-- A record all of whose properties are `undefined`. -/
def emptyTrack : TrackInfo :=
  { Id := .undefined, ticket := .undefined, username := .undefined, filename := .undefined,
    fullpath := .undefined, extension := .undefined, filesize := .undefined,
    attributes := .undefined, bitrate := .undefined, sample_rate := .undefined,
    bit_depth := .undefined, duration := .undefined }

/-- The text of a `TRACK_INFO` envelope whose data has the key `Id` only. -/
def sparseTrackText : String := "\x7b\"msg_type\":1,\"data\":\x7b\"Id\":\"t1\"\x7d\x7d"

/-- The properties of the `data` of `sparseTrackText`. -/
def sparseTrackProps : List (String × JsVal) := [("Id", JsVal.str "t1")]

/-- The value of `sparseTrackText`. -/
def sparseTrackEnvelope : JsVal :=
  JsVal.obj [("msg_type", JsVal.num 1), ("data", JsVal.obj sparseTrackProps)]

/-- The record that the `data` of `sparseTrackText` decodes to. -/
def sparseTrack : TrackInfo :=
  { emptyTrack with Id := JsVal.str "t1" }

/-- A router whose first subscriber for track infos reads a property of the
attributes and whose second one is quiet. -/
def attributeRouter : SlskWebSocketClient :=
  (((SlskWebSocketClient.constructor "ws://localhost").onTrackInfo (attributeReader 1)).1
    |>.onTrackInfo (quietHandler 2)).1

/-- A router with two quiet subscribers for track infos. -/
def quietTrackRouter : SlskWebSocketClient :=
  (((SlskWebSocketClient.constructor "ws://localhost").onTrackInfo (quietHandler 1)).1
    |>.onTrackInfo (quietHandler 2)).1

/-- Registrations on a multiplexer: two quiet handlers for `open`, one of them twice,
and one quiet handler for `close`. -/
def quietRegistrations : List (String × Handler) :=
  [("open", quietHandler 1), ("close", quietHandler 3), ("open", quietHandler 2),
    ("open", quietHandler 1)]

/-- Registrations on a multiplexer: for `open`, a handler that throws and then a
quiet one. -/
def throwingRegistrations : List (String × Handler) :=
  [("open", throwingHandler 1), ("open", quietHandler 2)]

/-- A multiplexer with three handlers for `close`, of which the second throws. -/
def closeMultiplexer : WebSocketClient :=
  (WebSocketClient.constructor "ws://localhost").registerAll
    [("close", quietHandler 1), ("close", throwingHandler 2), ("close", quietHandler 3)]

/-- A router with an open socket and one quiet subscriber for server errors. -/
def openErrorRouter : SlskWebSocketClient :=
  (openRouter.onError (quietHandler 1)).1

/-- Handler 99 closes the connection when it is called; every other handler leaves
the client alone. -/
def closingMutation : Mutation :=
  fun tag _ s => if tag = 99 then s.close else s

/-- A router with an open socket whose only subscriber for server errors is handler
99. -/
def selfClosingRouter : SlskWebSocketClient :=
  (openRouter.onError (quietHandler 99)).1

/-- A multiplexer with an open socket and three handlers for `close`. -/
def openMultiplexer : WebSocketClient :=
  { closeMultiplexer with websocket := some openSocket }

/-- A router with one subscriber for server errors (handler 1) and, on its
multiplexer, one handler for transport errors (handler 5). -/
def twoChannelRouter : SlskWebSocketClient :=
  { (freshRouter.onError (quietHandler 1)).1 with
    websocketClient :=
      (freshRouter.websocketClient.on "error" (Listener.fn (quietHandler 5))).1 }

/-! ## Lemmas -/

set_option maxRecDepth 8000

/-- When no handler throws, the loop calls every handler once, in order, and returns. -/
theorem forEach_all_return (data : Arg) (hs : List Handler)
    (h : ∀ g ∈ hs, g.run data = none) :
    forEach (fun handler => handler.call data) hs = ⟨fanOut hs data, none⟩ := by
  induction hs with
  | nil => rfl
  | cons g gs ih =>
    have hg : g.run data = none := h g (List.mem_cons_self g gs)
    have hgs := ih (fun x hx => h x (List.mem_cons_of_mem g hx))
    rw [forEach, hgs]
    simp [Handler.call, hg, fanOut]

/-- The loop stops at the first handler that throws: the handlers before it and the
throwing one are called, the later ones are not, and the exception leaves the loop. -/
theorem forEach_first_throw (data : Arg) (pre post : List Handler) (g : Handler) (e : Exn)
    (hpre : ∀ x ∈ pre, x.run data = none) (hg : g.run data = some e) :
    forEach (fun handler => handler.call data) (pre ++ g :: post)
      = ⟨fanOut (pre ++ [g]) data, some e⟩ := by
  induction pre with
  | nil => simp [forEach, Handler.call, hg, fanOut]
  | cons x xs ih =>
    have hx : x.run data = none := hpre x (List.mem_cons_self x xs)
    have hxs := ih (fun y hy => hpre y (List.mem_cons_of_mem x hy))
    rw [List.cons_append, forEach, hxs]
    simp [Handler.call, hx, fanOut]

/-- The router fan-out is the loop over the subscriber list (empty when the list is
not declared). -/
theorem triggerEvent_eq (s : SlskWebSocketClient) (list : String) (data : Arg) :
    s._triggerEvent list data
      = forEach (fun handler => handler.call data) (s.subscribers list) := by
  unfold SlskWebSocketClient._triggerEvent SlskWebSocketClient.subscribers
  cases tableGet s.eventHandlers list <;> rfl

/-- On a text that parses, `_onMessage` is the `try` block around the parsed value. -/
theorem onMessage_of_parsed (host : Host) (s : SlskWebSocketClient) (text : String)
    (env : JsVal) (hparse : host.parse text = some env) :
    s._onMessage host (Arg.messageEvent ⟨text⟩) = Run.catchLog (s.onMessageTry env) := by
  simp [SlskWebSocketClient._onMessage, hparse]

/-- The `try` block on a message of kind `k` whose data decodes to `a`: the record is
handed to the loop over the list of `k`. -/
theorem onMessageTry_decoded (s : SlskWebSocketClient)
    (env d : JsVal) (k : Inbound) (a : Arg)
    (htype : env.getProp "msg_type" = .ok (JsVal.num k.msgType))
    (hdata : env.getProp "data" = .ok d)
    (hdec : k.decode d = .ok a) :
    s.onMessageTry env = forEach (fun handler => handler.call a) (s.subscribers k.listName) := by
  rw [← triggerEvent_eq]
  cases k
  · rcases hfd : TrackInfo.fromJson d with e | r <;>
      simp [Inbound.decode, hfd, Except.map] at hdec
    subst hdec
    simp [SlskWebSocketClient.onMessageTry, Inbound.msgType, Inbound.listName, htype, hdata, hfd,
      Run.eval, JsVal.strictEqNum, SlskWebSocketClient.ServerMessageTypes.SEARCH_RESPONSE,
      SlskWebSocketClient.ServerMessageTypes.TRACK_INFO] at htype ⊢
  · rcases hfd : SearchResponse.fromJson d with e | r <;>
      simp [Inbound.decode, hfd, Except.map] at hdec
    subst hdec
    simp [SlskWebSocketClient.onMessageTry, Inbound.msgType, Inbound.listName, htype, hdata, hfd,
      Run.eval, JsVal.strictEqNum, SlskWebSocketClient.ServerMessageTypes.SEARCH_RESPONSE] at htype ⊢
  · rcases hfd : TrackDownloadInfo.fromJson d with e | r <;>
      simp [Inbound.decode, hfd, Except.map] at hdec
    subst hdec
    simp [SlskWebSocketClient.onMessageTry, Inbound.msgType, Inbound.listName, htype, hdata, hfd,
      Run.eval, JsVal.strictEqNum, SlskWebSocketClient.ServerMessageTypes.SEARCH_RESPONSE,
      SlskWebSocketClient.ServerMessageTypes.TRACK_INFO,
      SlskWebSocketClient.ServerMessageTypes.TRACK_DOWNLOAD_RESPONSE] at htype ⊢
  · rcases hfd : WsError.fromJson d with e | r <;>
      simp [Inbound.decode, hfd, Except.map] at hdec
    subst hdec
    simp [SlskWebSocketClient.onMessageTry, Inbound.msgType, Inbound.listName, htype, hdata, hfd,
      Run.eval, JsVal.strictEqNum, SlskWebSocketClient.ServerMessageTypes.SEARCH_RESPONSE,
      SlskWebSocketClient.ServerMessageTypes.TRACK_INFO,
      SlskWebSocketClient.ServerMessageTypes.TRACK_DOWNLOAD_RESPONSE,
      SlskWebSocketClient.ServerMessageTypes.ERROR] at htype ⊢

/-- The `try` block on a message of kind `k` whose data does not decode: the decoding
exception is thrown before any handler is reached. -/
theorem onMessageTry_undecodable (s : SlskWebSocketClient)
    (env d : JsVal) (k : Inbound) (e : Exn)
    (htype : env.getProp "msg_type" = .ok (JsVal.num k.msgType))
    (hdata : env.getProp "data" = .ok d)
    (hdec : k.decode d = .error e) :
    s.onMessageTry env = Run.throw e := by
  cases k
  · rcases hfd : TrackInfo.fromJson d with e | r <;>
      simp [Inbound.decode, hfd, Except.map] at hdec
    subst hdec
    simp [SlskWebSocketClient.onMessageTry, Inbound.msgType, Inbound.listName, htype, hdata, hfd,
      Run.eval, JsVal.strictEqNum, SlskWebSocketClient.ServerMessageTypes.SEARCH_RESPONSE,
      SlskWebSocketClient.ServerMessageTypes.TRACK_INFO] at htype ⊢
  · rcases hfd : SearchResponse.fromJson d with e | r <;>
      simp [Inbound.decode, hfd, Except.map] at hdec
    subst hdec
    simp [SlskWebSocketClient.onMessageTry, Inbound.msgType, Inbound.listName, htype, hdata, hfd,
      Run.eval, JsVal.strictEqNum, SlskWebSocketClient.ServerMessageTypes.SEARCH_RESPONSE] at htype ⊢
  · rcases hfd : TrackDownloadInfo.fromJson d with e | r <;>
      simp [Inbound.decode, hfd, Except.map] at hdec
    subst hdec
    simp [SlskWebSocketClient.onMessageTry, Inbound.msgType, Inbound.listName, htype, hdata, hfd,
      Run.eval, JsVal.strictEqNum, SlskWebSocketClient.ServerMessageTypes.SEARCH_RESPONSE,
      SlskWebSocketClient.ServerMessageTypes.TRACK_INFO,
      SlskWebSocketClient.ServerMessageTypes.TRACK_DOWNLOAD_RESPONSE] at htype ⊢
  · rcases hfd : WsError.fromJson d with e | r <;>
      simp [Inbound.decode, hfd, Except.map] at hdec
    subst hdec
    simp [SlskWebSocketClient.onMessageTry, Inbound.msgType, Inbound.listName, htype, hdata, hfd,
      Run.eval, JsVal.strictEqNum, SlskWebSocketClient.ServerMessageTypes.SEARCH_RESPONSE,
      SlskWebSocketClient.ServerMessageTypes.TRACK_INFO,
      SlskWebSocketClient.ServerMessageTypes.TRACK_DOWNLOAD_RESPONSE,
      SlskWebSocketClient.ServerMessageTypes.ERROR] at htype ⊢

/-- On an object, `TrackInfo.fromJson` copies the twelve properties. -/
theorem trackInfo_fromJson_object (props : List (String × JsVal)) :
    TrackInfo.fromJson (JsVal.obj props)
      = .ok ⟨(props.lookup "Id").getD .undefined, (props.lookup "ticket").getD .undefined,
          (props.lookup "username").getD .undefined, (props.lookup "filename").getD .undefined,
          (props.lookup "fullpath").getD .undefined, (props.lookup "extension").getD .undefined,
          (props.lookup "filesize").getD .undefined, (props.lookup "attributes").getD .undefined,
          (props.lookup "bitrate").getD .undefined, (props.lookup "sample_rate").getD .undefined,
          (props.lookup "bit_depth").getD .undefined, (props.lookup "duration").getD .undefined⟩ :=
  rfl

/-- `TrackInfo.fromJson` throws on `undefined` and `null` only, and then a `TypeError`. -/
theorem trackInfo_fromJson_eq_error (d : JsVal) (e : Exn) :
    TrackInfo.fromJson d = .error e ↔ e = Exn.typeError ∧ (d = .undefined ∨ d = .null) := by
  cases d <;> simp [TrackInfo.fromJson, JsVal.getProp, bind, Except.bind, pure, Except.pure, eq_comm]

/-- A decoded `TrackInfo` has the properties of its source. -/
theorem trackInfo_mirrors_of_fromJson (d : JsVal) (r : TrackInfo)
    (h : TrackInfo.fromJson d = .ok r) : r.Mirrors d := by
  cases d <;>
    simp [TrackInfo.fromJson, JsVal.getProp, bind, Except.bind, pure, Except.pure] at h <;>
    subst h <;>
    simp [TrackInfo.Mirrors, TrackInfo.fields, JsVal.getProp]

/-- A decoded `TrackDownloadInfo` has the properties of its source. -/
theorem trackDownloadInfo_mirrors_of_fromJson (d : JsVal) (r : TrackDownloadInfo)
    (h : TrackDownloadInfo.fromJson d = .ok r) : r.Mirrors d := by
  cases d <;>
    simp [TrackDownloadInfo.fromJson, JsVal.getProp, bind, Except.bind, pure, Except.pure] at h <;>
    subst h <;>
    simp [TrackDownloadInfo.Mirrors, TrackDownloadInfo.fields, JsVal.getProp]

/-- A decoded `WsError` has the properties of its source. -/
theorem wsError_mirrors_of_fromJson (d : JsVal) (r : WsError)
    (h : WsError.fromJson d = .ok r) : r.Mirrors d := by
  cases d <;>
    simp [WsError.fromJson, JsVal.getProp, bind, Except.bind, pure, Except.pure] at h <;>
    subst h <;>
    simp [WsError.Mirrors, WsError.fields, JsVal.getProp]

/-- A successful `map` over an array decodes the elements one by one, in order. -/
theorem arrayMap_fromJson_ok (items : List JsVal) (ts : List TrackInfo)
    (h : arrayMap (fun trackInfo => TrackInfo.fromJson trackInfo) items = .ok ts) :
    List.Forall₂ (fun x t => TrackInfo.fromJson x = .ok t ∧ t.Mirrors x) items ts := by
  induction items generalizing ts with
  | nil =>
    simp [arrayMap] at h
    subst h
    exact List.Forall₂.nil
  | cons x xs ih =>
    rcases hx : TrackInfo.fromJson x with e | t
    · simp [arrayMap, hx] at h
    · rcases hxs : arrayMap (fun trackInfo => TrackInfo.fromJson trackInfo) xs with e | us
      · simp [arrayMap, hx, hxs] at h
      · simp [arrayMap, hx, hxs] at h
        subst h
        exact List.Forall₂.cons ⟨hx, trackInfo_mirrors_of_fromJson x t hx⟩ (ih us hxs)

/-- On an object, `SearchResponse.fromJson` copies five properties and maps `resultset`. -/
theorem searchResponse_fromJson_object (props : List (String × JsVal)) :
    SearchResponse.fromJson (JsVal.obj props)
      = match ((props.lookup "resultset").getD .undefined).map
            (fun trackInfo => TrackInfo.fromJson trackInfo) with
        | .error e => .error e
        | .ok resultset =>
          .ok ⟨(props.lookup "Id").getD .undefined, (props.lookup "query").getD .undefined,
            (props.lookup "ticket").getD .undefined,
            (props.lookup "total_results").getD .undefined,
            (props.lookup "current_results").getD .undefined, resultset⟩ := by
  simp only [SearchResponse.fromJson, JsVal.getProp, bind, Except.bind, pure, Except.pure]
  cases ((props.lookup "resultset").getD .undefined).map
    (fun trackInfo => TrackInfo.fromJson trackInfo) <;> rfl

/-- Only an object can decode to a `SearchResponse`. -/
theorem searchResponse_fromJson_ok_object (d : JsVal) (r : SearchResponse)
    (h : SearchResponse.fromJson d = .ok r) : ∃ props, d = JsVal.obj props := by
  cases d <;>
    simp [SearchResponse.fromJson, JsVal.getProp, JsVal.map, bind, Except.bind, pure,
      Except.pure] at h ⊢

/-- A decoded `SearchResponse` has the properties of its source. -/
theorem searchResponse_mirrors_of_fromJson (d : JsVal) (r : SearchResponse)
    (h : SearchResponse.fromJson d = .ok r) : r.Mirrors d := by
  obtain ⟨props, rfl⟩ := searchResponse_fromJson_ok_object d r h
  rw [searchResponse_fromJson_object] at h
  rcases hrs : (props.lookup "resultset").getD .undefined with _ | _ | _ | _ | _ | items | _ <;>
    simp [hrs, JsVal.map] at h
  rcases hm : arrayMap (fun trackInfo => TrackInfo.fromJson trackInfo) items with e | ts <;>
    simp [hm] at h
  subst h
  refine ⟨?_, items, ?_, arrayMap_fromJson_ok items ts hm⟩
  · simp [SearchResponse.fields, JsVal.getProp]
  · simp [JsVal.getProp, hrs]

/-- A decoded record of any kind has the properties of its source. -/
theorem inbound_mirrors_of_decode (k : Inbound) (d : JsVal) (a : Arg)
    (h : k.decode d = .ok a) : a.Mirrors d := by
  cases k
  · rcases hfd : TrackInfo.fromJson d with e | r <;> simp [Inbound.decode, hfd, Except.map] at h
    subst h
    exact trackInfo_mirrors_of_fromJson d r hfd
  · rcases hfd : SearchResponse.fromJson d with e | r <;>
      simp [Inbound.decode, hfd, Except.map] at h
    subst h
    exact searchResponse_mirrors_of_fromJson d r hfd
  · rcases hfd : TrackDownloadInfo.fromJson d with e | r <;>
      simp [Inbound.decode, hfd, Except.map] at h
    subst h
    exact trackDownloadInfo_mirrors_of_fromJson d r hfd
  · rcases hfd : WsError.fromJson d with e | r <;> simp [Inbound.decode, hfd, Except.map] at h
    subst h
    exact wsError_mirrors_of_fromJson d r hfd

/-- Writing under an existing key keeps the keys of a table. -/
theorem tableKeys_tableSet {β : Type} (table : List (String × β)) (key : String) (v : β)
    (h : key ∈ tableKeys table) : tableKeys (tableSet table key v) = tableKeys table := by
  induction table with
  | nil => simp [tableKeys] at h
  | cons p rest ih =>
    obtain ⟨k, w⟩ := p
    by_cases hk : k = key
    · simp [tableSet, tableKeys, hk]
    · have hrest : key ∈ tableKeys rest := by
        simp [tableKeys] at h
        rcases h with h | h
        · exact absurd h.symm hk
        · simpa [tableKeys] using h
      have := ih hrest
      simp [tableSet, tableKeys, hk] at this ⊢
      exact this

/-- The values of `WebSocketClient.Events` are the four lifecycle names. -/
theorem webSocketClient_events_values :
    tableValues WebSocketClient.Events = lifecycleNames := rfl

/-- A new router has the four declared subscriber lists. -/
theorem declaredLists_constructor (url : String) :
    (SlskWebSocketClient.constructor url).DeclaredLists := rfl

/-- The method `on` keeps the four declared subscriber lists, whether it throws or not. -/
theorem declaredLists_on (s : SlskWebSocketClient) (event : String) (handler : Handler)
    (h : s.DeclaredLists) : (s.on event handler).1.DeclaredLists := by
  unfold SlskWebSocketClient.DeclaredLists at h ⊢
  unfold SlskWebSocketClient.on
  split
  · exact h
  · rename_i hcond
    have hmem : event ∈ tableKeys s.eventHandlers := by simpa using hcond
    show tableKeys (tablePush s.eventHandlers event handler) = subscriberListNames
    unfold tablePush
    rw [tableKeys_tableSet _ _ _ hmem]
    exact h

/-- Among handlers of which one throws there is a first one that throws. -/
theorem exists_first_throw (data : Arg) (hs : List Handler)
    (h : ∃ g ∈ hs, g.run data ≠ none) :
    ∃ pre g post e, hs = pre ++ g :: post ∧ (∀ x ∈ pre, x.run data = none)
      ∧ g.run data = some e := by
  induction hs with
  | nil =>
    obtain ⟨g, hg, _⟩ := h
    cases hg
  | cons x xs ih =>
    cases hx : x.run data with
    | some e => exact ⟨[], x, xs, e, rfl, by simp, hx⟩
    | none =>
      have hrest : ∃ g ∈ xs, g.run data ≠ none := by
        obtain ⟨g, hg, hthrow⟩ := h
        rcases List.mem_cons.mp hg with rfl | hmem
        · exact absurd hx hthrow
        · exact ⟨g, hmem, hthrow⟩
      obtain ⟨pre, g, post, e, hsplit, hpre, hg⟩ := ih hrest
      refine ⟨x :: pre, g, post, e, by rw [hsplit]; rfl, ?_, hg⟩
      intro y hy
      rcases List.mem_cons.mp hy with rfl | hmem
      · exact hx
      · exact hpre y hmem

/-- A message whose first throwing subscriber is `g`: the subscribers up to `g` are
called, the exception of `g` is logged, and `_onMessage` returns. -/
theorem onMessage_first_throw (host : Host) (s : SlskWebSocketClient)
    (text : String) (env d : JsVal) (k : Inbound) (a : Arg)
    (pre post : List Handler) (g : Handler) (e : Exn)
    (hparse : host.parse text = some env)
    (htype : env.getProp "msg_type" = .ok (JsVal.num k.msgType))
    (hdata : env.getProp "data" = .ok d)
    (hdec : k.decode d = .ok a)
    (hsplit : s.subscribers k.listName = pre ++ g :: post)
    (hpre : ∀ x ∈ pre, x.run a = none)
    (hg : g.run a = some e) :
    s._onMessage host (Arg.messageEvent ⟨text⟩)
      = ⟨fanOut (pre ++ [g]) a ++ [Effect.logged e], none⟩ := by
  rw [onMessage_of_parsed host s text env hparse,
    onMessageTry_decoded s env d k a htype hdata hdec, hsplit,
    forEach_first_throw a pre post g e hpre hg]
  rfl

/-- `TrackInfo.fromJson` succeeds on every value other than `null` and `undefined`. -/
theorem trackInfo_fromJson_ok_of_not_nullish (x : JsVal) (h : x.isNullish = false) :
    ∃ t, TrackInfo.fromJson x = .ok t := by
  rcases hx : TrackInfo.fromJson x with e | t
  · rcases ((trackInfo_fromJson_eq_error x e).mp hx).2 with rfl | rfl <;>
      simp [JsVal.isNullish] at h
  · exact ⟨t, rfl⟩

/-- The `map` over an array without `null` and `undefined` succeeds. -/
theorem arrayMap_fromJson_total (items : List JsVal)
    (h : ∀ x ∈ items, x.isNullish = false) :
    ∃ ts, arrayMap (fun trackInfo => TrackInfo.fromJson trackInfo) items = .ok ts := by
  induction items with
  | nil => exact ⟨[], rfl⟩
  | cons x xs ih =>
    obtain ⟨t, ht⟩ := trackInfo_fromJson_ok_of_not_nullish x (h x (List.mem_cons_self x xs))
    obtain ⟨ts, hts⟩ := ih (fun y hy => h y (List.mem_cons_of_mem x hy))
    exact ⟨t :: ts, by simp [arrayMap, ht, hts]⟩

/-- The `map` over an array that holds `null` or `undefined` throws a `TypeError`. -/
theorem arrayMap_fromJson_nullish (items : List JsVal)
    (h : ∃ x ∈ items, x.isNullish = true) :
    arrayMap (fun trackInfo => TrackInfo.fromJson trackInfo) items = .error Exn.typeError := by
  induction items with
  | nil =>
    obtain ⟨x, hx, _⟩ := h
    cases hx
  | cons x xs ih =>
    rcases hx : TrackInfo.fromJson x with e | t
    · have he := ((trackInfo_fromJson_eq_error x e).mp hx).1
      subst he
      simp [arrayMap, hx]
    · have hrest : ∃ y ∈ xs, y.isNullish = true := by
        obtain ⟨y, hy, hnull⟩ := h
        rcases List.mem_cons.mp hy with rfl | hmem
        · cases y <;> simp [JsVal.isNullish] at hnull <;>
            simp [TrackInfo.fromJson, JsVal.getProp, bind, Except.bind] at hx
        · exact ⟨y, hmem, hnull⟩
      simp [arrayMap, hx, ih hrest]

/-- A handler before which no handler throws is called by the loop. -/
theorem forEach_reaches (data : Arg) (pre post : List Handler) (g : Handler)
    (hpre : ∀ x ∈ pre, x.run data = none) :
    Effect.invoked g.tag data
      ∈ (forEach (fun handler => handler.call data) (pre ++ g :: post)).effects := by
  induction pre with
  | nil =>
    cases hg : g.run data <;> simp [forEach, Handler.call, hg]
  | cons x xs ih =>
    have hx : x.run data = none := hpre x (List.mem_cons_self x xs)
    have hxs := ih (fun y hy => hpre y (List.mem_cons_of_mem x hy))
    rw [List.cons_append, forEach]
    simp only [Handler.call, hx]
    exact List.mem_append_right _ hxs

/-- The `catch` block adds to what the `try` block did and removes nothing. -/
theorem mem_catchLog (r : Run) (x : Effect) (h : x ∈ r.effects) : x ∈ r.catchLog.effects := by
  unfold Run.catchLog
  cases r.thrown with
  | none => exact h
  | some e => exact List.mem_append_left _ h

/-- The loop over listeners of which none throws: every listener is called once, in
order, and the loop returns. -/
theorem forEach_listeners_all_return (bound : Arg → Run) (data : Arg) (ls : List Listener)
    (h : ∀ l ∈ ls, (l.call bound data).thrown = none) :
    forEach (fun handler => Listener.call bound handler data) ls
      = ⟨callsOf bound data ls, none⟩ := by
  induction ls with
  | nil => rfl
  | cons l rest ih =>
    have hl := h l (List.mem_cons_self l rest)
    have hrest := ih (fun x hx => h x (List.mem_cons_of_mem l hx))
    rw [forEach, hrest]
    simp [hl, callsOf]

/-- The loop over listeners stops at the first one that throws. -/
theorem forEach_listeners_first_throw (bound : Arg → Run) (data : Arg)
    (pre post : List Listener) (g : Listener) (e : Exn)
    (hpre : ∀ l ∈ pre, (l.call bound data).thrown = none)
    (hg : (g.call bound data).thrown = some e) :
    forEach (fun handler => Listener.call bound handler data) (pre ++ g :: post)
      = ⟨callsOf bound data pre ++ (g.call bound data).effects, some e⟩ := by
  induction pre with
  | nil => simp [forEach, hg, callsOf]
  | cons l rest ih =>
    have hl := hpre l (List.mem_cons_self l rest)
    have hrest := ih (fun x hx => hpre x (List.mem_cons_of_mem l hx))
    rw [List.cons_append, forEach, hrest]
    simp [hl, callsOf]

/-- Calling functions as listeners is one invocation for each function. -/
theorem callsOf_fn (bound : Arg → Run) (data : Arg) (hs : List Handler) :
    callsOf bound data (hs.map Listener.fn) = fanOut hs data := by
  induction hs with
  | nil => rfl
  | cons h rest ih => simp [callsOf, Listener.call, Handler.call, fanOut] at ih ⊢; exact ih

/-- The fan-out of the multiplexer is the loop over the listeners of the event. -/
theorem mux_triggerEvent_eq (bound : Arg → Run) (c : WebSocketClient) (event : String)
    (data : Arg) :
    c._triggerEvent bound event data
      = forEach (fun handler => Listener.call bound handler data) (c.listeners event) := by
  unfold WebSocketClient._triggerEvent WebSocketClient.listeners
  cases tableGet c.eventHandlers event <;> rfl

/-- Reading a table under the key that was just written gives the written value. -/
theorem tableGet_tableSet_same {β : Type} (table : List (String × β)) (key : String) (v : β) :
    tableGet (tableSet table key v) key = some v := by
  induction table with
  | nil => simp [tableSet, tableGet, List.lookup]
  | cons p rest ih =>
    obtain ⟨k, w⟩ := p
    by_cases hk : k = key
    · simp [tableSet, tableGet, List.lookup, hk]
    · have hne : (key == k) = false := by simpa using fun h => hk h.symm
      simp only [tableSet, hk, if_false, tableGet, List.lookup, hne]
      exact ih

/-- Writing under one key does not change what a table holds under another key. -/
theorem tableGet_tableSet_other {β : Type} (table : List (String × β)) (key other : String)
    (v : β) (h : other ≠ key) :
    tableGet (tableSet table key v) other = tableGet table other := by
  induction table with
  | nil =>
    have hne : (other == key) = false := by simpa using h
    simp [tableSet, tableGet, List.lookup, hne]
  | cons p rest ih =>
    obtain ⟨k, w⟩ := p
    by_cases hk : k = key
    · subst hk
      have hne : (other == k) = false := by simpa using h
      simp [tableSet, tableGet, List.lookup, hne]
    · simp only [tableSet, hk, if_false, tableGet, List.lookup]
      cases hok : other == k with
      | true => rfl
      | false => exact ih

/-- One successful or failed registration: the listeners of a recognised event grow
by the handler when the registration names that event, and stay as they were
otherwise. -/
theorem listeners_on (c : WebSocketClient) (event e : String) (handler : Listener)
    (he : e ∈ lifecycleNames) :
    (c.on event handler).1.listeners e
      = c.listeners e ++ (if event = e then [handler] else []) := by
  unfold WebSocketClient.on
  by_cases hev : event ∈ lifecycleNames
  · have hcond : (!(tableValues WebSocketClient.Events).contains event) = false := by
      simpa [webSocketClient_events_values] using hev
    simp only [hcond, Bool.false_eq_true, if_false]
    by_cases hsame : event = e
    · subst hsame
      simp [WebSocketClient.listeners, tablePush, tableGet_tableSet_same]
    · have hne : e ≠ event := fun h => hsame h.symm
      simp [WebSocketClient.listeners, tablePush, tableGet_tableSet_other _ _ _ _ hne, hsame]
  · have hcond : (!(tableValues WebSocketClient.Events).contains event) = true := by
      simpa [webSocketClient_events_values] using hev
    have hne : event ≠ e := fun h => hev (h ▸ he)
    simp only [hcond, if_true, hne, if_false, List.append_nil]

/-- After a sequence of registrations the listeners of a recognised event are the
earlier ones followed by the handlers registered for the event, in order. -/
theorem listeners_registerAll (c : WebSocketClient) (regs : List (String × Handler))
    (e : String) (he : e ∈ lifecycleNames) :
    (c.registerAll regs).listeners e
      = c.listeners e ++ (registeredFor regs e).map Listener.fn := by
  induction regs generalizing c with
  | nil => simp [WebSocketClient.registerAll, registeredFor]
  | cons p rest ih =>
    obtain ⟨event, handler⟩ := p
    rw [WebSocketClient.registerAll, ih, listeners_on c event e (Listener.fn handler) he]
    by_cases hsame : event = e
    · simp [registeredFor, hsame]
    · simp [registeredFor, hsame]

/-- Every notification stands for one of the four lifecycle events. -/
theorem notification_eventName_mem (n : Notification) : n.eventName ∈ lifecycleNames := by
  cases n <;> simp [Notification.eventName, lifecycleNames]

/-- Delivering a notification is the fan-out for its event with its payload. -/
theorem deliver_eq_triggerEvent (bound : Arg → Run) (c : WebSocketClient) (n : Notification) :
    c.deliver bound n = c._triggerEvent bound n.eventName n.payload := by
  cases n <;> rfl

/-- Every reachable router has the four declared subscriber lists. -/
theorem declaredLists_of_reachable (s : SlskWebSocketClient) (h : s.Reachable) :
    s.DeclaredLists := by
  induction h with
  | constructed url => exact declaredLists_constructor url
  | registered s event handler _ ih => exact declaredLists_on s event handler ih
  | connected s _ ih => exact ih
  | closed s _ ih => exact ih
  | searched host s query _ ih => exact ih
  | requested host s ticket username filename _ ih => exact ih
  | listened s event listener _ ih => exact ih
  | socketChanged s ws _ ih => exact ih

/-- On a router with the declared lists, `on` with the name of a declared list
appends the handler to that list and to no other. -/
theorem on_appends (s : SlskWebSocketClient) (list : String) (handler : Handler)
    (hlists : s.DeclaredLists) (hname : list ∈ subscriberListNames) :
    AppendsTo list handler s (s.on list handler) := by
  unfold SlskWebSocketClient.DeclaredLists at hlists
  have hcond : (!(tableKeys s.eventHandlers).contains list) = false := by
    simpa [hlists] using hname
  have hon : s.on list handler
      = ({ s with eventHandlers := tablePush s.eventHandlers list handler }, none) := by
    simp only [SlskWebSocketClient.on, hcond, Bool.false_eq_true, if_false]
  rw [hon]
  refine ⟨rfl, ?_, ?_, rfl⟩
  · simp [SlskWebSocketClient.subscribers, tablePush, tableGet_tableSet_same]
  · intro other hother
    simp [SlskWebSocketClient.subscribers, tablePush, tableGet_tableSet_other _ _ _ _ hother]

/-- The loop over handlers that leave the client alone leaves the client alone. -/
theorem forEachOn_client (mutate : Mutation) (data : Arg) (hs : List Handler)
    (s : SlskWebSocketClient) (h : ∀ g ∈ hs, mutate g.tag data s = s) :
    (forEachOn mutate data hs s).1 = s := by
  induction hs with
  | nil => rfl
  | cons g rest ih =>
    have hg := h g (List.mem_cons_self g rest)
    have hrest := ih (fun x hx => h x (List.mem_cons_of_mem g hx))
    unfold forEachOn
    simp only [hg]
    cases g.run data with
    | some e => rfl
    | none => exact hrest

/-- The course of the loop does not depend on what the handlers do to the client, and
is the course that the loop of the plain embedding takes. -/
theorem forEachOn_run (mutate : Mutation) (data : Arg) (hs : List Handler)
    (s : SlskWebSocketClient) :
    (forEachOn mutate data hs s).2 = forEach (fun handler => handler.call data) hs := by
  induction hs generalizing s with
  | nil => rfl
  | cons g rest ih =>
    unfold forEachOn forEach
    cases hg : g.run data with
    | some e => simp [Handler.call, hg]
    | none => simp [Handler.call, hg, ih]

/-- What a table holds under a key is one of its values. -/
theorem tableGet_mem_values {β : Type} (table : List (String × β)) (key : String) (v : β)
    (h : tableGet table key = some v) : v ∈ tableValues table := by
  induction table with
  | nil => simp [tableGet, List.lookup] at h
  | cons p rest ih =>
    obtain ⟨k, w⟩ := p
    cases hk : key == k with
    | true =>
      simp only [tableGet, List.lookup, hk, Option.some.injEq] at h
      simp [tableValues, h]
    | false =>
      simp only [tableGet, List.lookup, hk] at h
      have := ih h
      simp only [tableValues, List.map_cons, List.mem_cons] at this ⊢
      exact Or.inr this

/-- The fan-out of the router over handlers that leave the client alone leaves the
client alone. -/
theorem triggerEventOn_client (mutate : Mutation) (s : SlskWebSocketClient) (event : String)
    (data : Arg) (h : ∀ hs ∈ tableValues s.eventHandlers, ∀ g ∈ hs, ∀ a, mutate g.tag a s = s) :
    (s.triggerEventOn mutate event data).1 = s := by
  unfold SlskWebSocketClient.triggerEventOn
  cases hget : tableGet s.eventHandlers event with
  | none => rfl
  | some handlers =>
    apply forEachOn_client
    intro g hg
    exact h handlers (tableGet_mem_values _ _ _ hget) g hg data

/-- The course of the fan-out with the client carried along is that of the plain
embedding. -/
theorem triggerEventOn_run (mutate : Mutation) (s : SlskWebSocketClient) (event : String)
    (data : Arg) :
    (s.triggerEventOn mutate event data).2 = s._triggerEvent event data := by
  unfold SlskWebSocketClient.triggerEventOn SlskWebSocketClient._triggerEvent
  cases tableGet s.eventHandlers event with
  | none => rfl
  | some handlers => exact forEachOn_run mutate data handlers s

/-- An evaluation leaves the client alone when its continuation does. -/
theorem evalOn_client {α : Type} (s : SlskWebSocketClient) (x : Except Exn α)
    (k : α → SlskWebSocketClient × Run) (h : ∀ a, (k a).1 = s) : (evalOn s x k).1 = s := by
  cases x with
  | error e => rfl
  | ok a => exact h a

/-- The course of an evaluation with the client carried along is that of the plain
evaluation when the continuations agree. -/
theorem evalOn_run {α : Type} (s : SlskWebSocketClient) (x : Except Exn α)
    (k : α → SlskWebSocketClient × Run) (k2 : α → Run) (h : ∀ a, (k a).2 = k2 a) :
    (evalOn s x k).2 = Run.eval x k2 := by
  cases x with
  | error e => rfl
  | ok a => exact h a

/-- The `try` block over handlers that leave the client alone leaves the client alone. -/
theorem onMessageTryOn_client (mutate : Mutation) (s : SlskWebSocketClient) (data : JsVal)
    (h : ∀ hs ∈ tableValues s.eventHandlers, ∀ g ∈ hs, ∀ a, mutate g.tag a s = s) :
    (s.onMessageTryOn mutate data).1 = s := by
  unfold SlskWebSocketClient.onMessageTryOn
  refine evalOn_client s _ _ fun t1 => ?_
  split
  · exact evalOn_client s _ _ fun d => evalOn_client s _ _ fun r =>
      triggerEventOn_client mutate s _ _ h
  refine evalOn_client s _ _ fun t2 => ?_
  split
  · exact evalOn_client s _ _ fun d => evalOn_client s _ _ fun r =>
      triggerEventOn_client mutate s _ _ h
  refine evalOn_client s _ _ fun t3 => ?_
  split
  · exact evalOn_client s _ _ fun d => evalOn_client s _ _ fun r =>
      triggerEventOn_client mutate s _ _ h
  refine evalOn_client s _ _ fun t4 => ?_
  split
  · exact evalOn_client s _ _ fun d => evalOn_client s _ _ fun r =>
      triggerEventOn_client mutate s _ _ h
  · rfl

/-- The course of the `try` block with the client carried along is that of the plain
embedding. -/
theorem onMessageTryOn_run (mutate : Mutation) (s : SlskWebSocketClient) (data : JsVal) :
    (s.onMessageTryOn mutate data).2 = s.onMessageTry data := by
  unfold SlskWebSocketClient.onMessageTryOn SlskWebSocketClient.onMessageTry
  refine evalOn_run s _ _ _ fun t1 => ?_
  split
  · exact evalOn_run s _ _ _ fun d => evalOn_run s _ _ _ fun r =>
      triggerEventOn_run mutate s _ _
  refine evalOn_run s _ _ _ fun t2 => ?_
  split
  · exact evalOn_run s _ _ _ fun d => evalOn_run s _ _ _ fun r =>
      triggerEventOn_run mutate s _ _
  refine evalOn_run s _ _ _ fun t3 => ?_
  split
  · exact evalOn_run s _ _ _ fun d => evalOn_run s _ _ _ fun r =>
      triggerEventOn_run mutate s _ _
  refine evalOn_run s _ _ _ fun t4 => ?_
  split
  · exact evalOn_run s _ _ _ fun d => evalOn_run s _ _ _ fun r =>
      triggerEventOn_run mutate s _ _
  · rfl

/-- Whatever a loop does is done by the call of one of the elements. -/
theorem forEach_effect_mem {H : Type} (call : H → Run) (hs : List H) (eff : Effect)
    (h : eff ∈ (forEach call hs).effects) : ∃ x ∈ hs, eff ∈ (call x).effects := by
  induction hs with
  | nil => simp [forEach, Run.done] at h
  | cons x rest ih =>
    unfold forEach at h
    cases hx : (call x).thrown with
    | some e =>
      simp only [hx] at h
      exact ⟨x, List.mem_cons_self x rest, h⟩
    | none =>
      simp only [hx, List.mem_append] at h
      rcases h with h | h
      · exact ⟨x, List.mem_cons_self x rest, h⟩
      · obtain ⟨y, hy, hmem⟩ := ih h
        exact ⟨y, List.mem_cons_of_mem x hy, hmem⟩

/-- What the `catch` block adds to the `try` block is one log entry. -/
theorem mem_catchLog_cases (r : Run) (x : Effect) (h : x ∈ r.catchLog.effects) :
    x ∈ r.effects ∨ ∃ e, x = Effect.logged e := by
  unfold Run.catchLog at h
  cases hr : r.thrown with
  | none =>
    simp only [hr] at h
    exact Or.inl h
  | some e =>
    simp only [hr, List.mem_append, List.mem_singleton] at h
    rcases h with h | h
    · exact Or.inl h
    · exact Or.inr ⟨e, h⟩

/-- The handlers called up to a throwing one, and the log entry after them. -/
theorem invokedTags_fanOut_logged (hs : List Handler) (a : Arg) (e : Exn) :
    invokedTags (fanOut hs a ++ [Effect.logged e]) = hs.map Handler.tag := by
  induction hs with
  | nil => rfl
  | cons h rest ih =>
    have hstep : invokedTags (fanOut (h :: rest) a ++ [Effect.logged e])
        = h.tag :: invokedTags (fanOut rest a ++ [Effect.logged e]) := rfl
    rw [hstep, ih]
    rfl

/-- A handler that closes the connection is seen in the client after the call: the
carried client is not the plain one by construction. -/
theorem onMessageOn_follows_mutation :
    (selfClosingRouter.onMessageOn (sampleHost fatalErrorText fatalErrorEnvelope)
        closingMutation (Arg.messageEvent ⟨fatalErrorText⟩)).1 = selfClosingRouter.close :=
  rfl

/-! ## The claims -/

/-- Claim C1, as amended.  For each of the four inbound kinds `k` (`msg_type` 1, 2, 3, 4),
every well-formed envelope whose data decodes to the record `a`, and every router state
in which no handler of the list of `k` throws on `a`: `_onMessage` calls every handler
of that list exactly once, in registration order, each with the record `a`, whose
properties are those of the data of the envelope; it calls nothing else, logs nothing
and returns normally. -/
theorem onMessage_dispatches_to_matching_list (host : Host) (s : SlskWebSocketClient)
    (text : String) (env d : JsVal) (k : Inbound) (a : Arg)
    (hparse : host.parse text = some env)
    (htype : env.getProp "msg_type" = .ok (JsVal.num k.msgType))
    (hdata : env.getProp "data" = .ok d)
    (hdec : k.decode d = .ok a)
    (hret : ∀ h ∈ s.subscribers k.listName, h.run a = none) :
    s._onMessage host (Arg.messageEvent ⟨text⟩)
        = ⟨fanOut (s.subscribers k.listName) a, none⟩
      ∧ a.Mirrors d := by
  refine ⟨?_, inbound_mirrors_of_decode k d a hdec⟩
  rw [onMessage_of_parsed host s text env hparse,
    onMessageTry_decoded s env d k a htype hdata hdec, forEach_all_return a _ hret]
  rfl

/-- Witness for C1: the search response of the specification, delivered to a router
with two quiet subscribers. -/
theorem onMessage_dispatches_to_matching_list_witness :
    quietRouter._onMessage searchHost (Arg.messageEvent ⟨sampleSearchText⟩)
        = ⟨[Effect.invoked 1 (Arg.searchResponse sampleSearchResponse),
            Effect.invoked 2 (Arg.searchResponse sampleSearchResponse)], none⟩
      ∧ (Arg.searchResponse sampleSearchResponse).Mirrors sampleSearchData :=
  onMessage_dispatches_to_matching_list searchHost quietRouter sampleSearchText
    sampleSearchEnvelope sampleSearchData Inbound.searchResponse
    (Arg.searchResponse sampleSearchResponse) rfl rfl rfl rfl
    (by
      intro h hh
      have hsubs : quietRouter.subscribers Inbound.searchResponse.listName
          = [quietHandler 1, quietHandler 2] := rfl
      rw [hsubs] at hh
      simp at hh
      rcases hh with rfl | rfl <;> rfl)

/-- Counterexample to C1 as stated: a well-formed `SEARCH_RESPONSE` envelope and a router
whose list `searchResponse` holds handler 1, which throws, and then handler 2.  Handler
2 is never called, so not every handler of the matching list is invoked. -/
theorem onMessage_skips_handlers_after_a_throw :
    searchHost.parse sampleSearchText = some sampleSearchEnvelope
      ∧ sampleSearchEnvelope.getProp "msg_type" = .ok (JsVal.num Inbound.searchResponse.msgType)
      ∧ sampleSearchEnvelope.getProp "data" = .ok sampleSearchData
      ∧ Inbound.searchResponse.decode sampleSearchData
          = .ok (Arg.searchResponse sampleSearchResponse)
      ∧ (throwingRouter.subscribers "searchResponse").map Handler.tag = [1, 2]
      ∧ throwingRouter._onMessage searchHost (Arg.messageEvent ⟨sampleSearchText⟩)
          = ⟨[Effect.invoked 1 (Arg.searchResponse sampleSearchResponse),
              Effect.logged (Exn.value (JsVal.str "boom"))], none⟩
      ∧ throwingRouter._onMessage searchHost (Arg.messageEvent ⟨sampleSearchText⟩)
          ≠ ⟨fanOut (throwingRouter.subscribers "searchResponse")
              (Arg.searchResponse sampleSearchResponse), none⟩ := by
  refine ⟨rfl, rfl, rfl, rfl, rfl, rfl, ?_⟩
  intro h
  have h2 := congrArg (fun r => invokedTags r.effects) h
  revert h2
  decide

/-- Claim C2, evaluated on the code.  For every text that `JSON.parse` rejects,
`_onMessage` calls no subscriber, but it does not return normally: the `SyntaxError`
leaves `_onMessage`, because the call of `JSON.parse` stands before the `try` block, and
it leaves the `message` fan-out of the multiplexer as well. -/
theorem onMessage_throws_on_invalid_json (host : Host) (s : SlskWebSocketClient)
    (text : String) (rest : List Listener)
    (hparse : host.parse text = none)
    (hbound : tableGet s.websocketClient.eventHandlers "message"
      = some (Listener.boundOnMessage :: rest)) :
    s._onMessage host (Arg.messageEvent ⟨text⟩) = ⟨[], some Exn.invalidJson⟩
      ∧ s.websocketClient.onmessage (s._onMessage host) ⟨text⟩ = ⟨[], some Exn.invalidJson⟩ := by
  have h1 : s._onMessage host (Arg.messageEvent ⟨text⟩) = ⟨[], some Exn.invalidJson⟩ := by
    simp [SlskWebSocketClient._onMessage, hparse, Run.throw]
  refine ⟨h1, ?_⟩
  simp [WebSocketClient.onmessage, WebSocketClient._triggerEvent,
    WebSocketClient.Events.MESSAGE, hbound, forEach, Listener.call, h1]

/-- Witness for C2: a text that breaks off after the key `msg_type`. -/
theorem onMessage_throws_on_invalid_json_witness :
    quietRouter._onMessage searchHost (Arg.messageEvent ⟨truncatedText⟩)
        = ⟨[], some Exn.invalidJson⟩
      ∧ quietRouter.websocketClient.onmessage (quietRouter._onMessage searchHost)
          ⟨truncatedText⟩ = ⟨[], some Exn.invalidJson⟩ :=
  onMessage_throws_on_invalid_json searchHost quietRouter truncatedText [] rfl rfl

/-- Claim C3.  For every valid JSON envelope whose `msg_type` is one of the four inbound
constants and whose data cannot be decoded into the record of that kind, `_onMessage`
calls no subscriber of any list and returns normally; the decoding exception is logged. -/
theorem onMessage_drops_undecodable (host : Host) (s : SlskWebSocketClient)
    (text : String) (env d : JsVal) (k : Inbound) (e : Exn)
    (hparse : host.parse text = some env)
    (htype : env.getProp "msg_type" = .ok (JsVal.num k.msgType))
    (hdata : env.getProp "data" = .ok d)
    (hdec : k.decode d = .error e) :
    s._onMessage host (Arg.messageEvent ⟨text⟩) = ⟨[Effect.logged e], none⟩
      ∧ invokedTags (s._onMessage host (Arg.messageEvent ⟨text⟩)).effects = [] := by
  have h1 : s._onMessage host (Arg.messageEvent ⟨text⟩) = ⟨[Effect.logged e], none⟩ := by
    rw [onMessage_of_parsed host s text env hparse,
      onMessageTry_undecodable s env d k e htype hdata hdec]
    rfl
  exact ⟨h1, by rw [h1]; rfl⟩

/-- Witness for C3: a `SEARCH_RESPONSE` whose data has no `resultset`, and one whose
`resultset` holds `null`. -/
theorem onMessage_drops_undecodable_witness :
    (quietRouter._onMessage (sampleHost noResultsetText noResultsetEnvelope)
          (Arg.messageEvent ⟨noResultsetText⟩) = ⟨[Effect.logged Exn.typeError], none⟩
        ∧ invokedTags (quietRouter._onMessage (sampleHost noResultsetText noResultsetEnvelope)
          (Arg.messageEvent ⟨noResultsetText⟩)).effects = [])
      ∧ (quietRouter._onMessage (sampleHost nullElementText nullElementEnvelope)
          (Arg.messageEvent ⟨nullElementText⟩) = ⟨[Effect.logged Exn.typeError], none⟩
        ∧ invokedTags (quietRouter._onMessage (sampleHost nullElementText nullElementEnvelope)
          (Arg.messageEvent ⟨nullElementText⟩)).effects = []) :=
  ⟨onMessage_drops_undecodable (sampleHost noResultsetText noResultsetEnvelope) quietRouter
      noResultsetText noResultsetEnvelope (JsVal.obj [("Id", JsVal.str "x")])
      Inbound.searchResponse Exn.typeError rfl rfl rfl rfl,
    onMessage_drops_undecodable (sampleHost nullElementText nullElementEnvelope) quietRouter
      nullElementText nullElementEnvelope (JsVal.obj [("resultset", JsVal.arr [JsVal.null])])
      Inbound.searchResponse Exn.typeError rfl rfl rfl rfl⟩

/-- Claim C4.  For every valid JSON object envelope whose `msg_type` is not one of the
numbers 1, 2, 3, 4, `_onMessage` calls no subscriber, logs nothing and throws nothing. -/
theorem onMessage_ignores_unknown_type (host : Host) (s : SlskWebSocketClient)
    (text : String) (props : List (String × JsVal))
    (hparse : host.parse text = some (JsVal.obj props))
    (hno : ∀ n ∈ ([1, 2, 3, 4] : List Rat),
      (JsVal.obj props).getProp "msg_type" ≠ .ok (JsVal.num n)) :
    s._onMessage host (Arg.messageEvent ⟨text⟩) = ⟨[], none⟩ := by
  rw [onMessage_of_parsed host s text _ hparse]
  have h1 := hno 1 (by simp)
  have h2 := hno 2 (by simp)
  have h3 := hno 3 (by simp)
  have h4 := hno 4 (by simp)
  simp only [JsVal.getProp, ne_eq, Except.ok.injEq] at h1 h2 h3 h4
  have hcmp : ∀ n : Rat, ((props.lookup "msg_type").getD JsVal.undefined) ≠ JsVal.num n →
      ((props.lookup "msg_type").getD JsVal.undefined).strictEqNum n = false := by
    intro n hn
    cases hv : (props.lookup "msg_type").getD JsVal.undefined <;>
      simp [JsVal.strictEqNum]
    rename_i m
    intro hm
    exact hn (by rw [hv, hm])
  simp [SlskWebSocketClient.onMessageTry, JsVal.getProp, Run.eval, hcmp 1 h1, hcmp 2 h2,
    hcmp 3 h3, hcmp 4 h4, SlskWebSocketClient.ServerMessageTypes.SEARCH_RESPONSE,
    SlskWebSocketClient.ServerMessageTypes.TRACK_INFO,
    SlskWebSocketClient.ServerMessageTypes.TRACK_DOWNLOAD_RESPONSE,
    SlskWebSocketClient.ServerMessageTypes.ERROR, Run.catchLog, Run.done]

/-- Witness for C4: the `msg_type` 99, the reserved `msg_type` 0, a missing `msg_type`,
and the string `1` as `msg_type`. -/
theorem onMessage_ignores_unknown_type_witness :
    quietRouter._onMessage (sampleHost type99Text (JsVal.obj type99Props))
        (Arg.messageEvent ⟨type99Text⟩) = ⟨[], none⟩
      ∧ quietRouter._onMessage (sampleHost type0Text (JsVal.obj type0Props))
        (Arg.messageEvent ⟨type0Text⟩) = ⟨[], none⟩
      ∧ quietRouter._onMessage (sampleHost noTypeText (JsVal.obj noTypeProps))
        (Arg.messageEvent ⟨noTypeText⟩) = ⟨[], none⟩
      ∧ quietRouter._onMessage (sampleHost stringTypeText (JsVal.obj stringTypeProps))
        (Arg.messageEvent ⟨stringTypeText⟩) = ⟨[], none⟩ :=
  ⟨onMessage_ignores_unknown_type (sampleHost type99Text (JsVal.obj type99Props)) quietRouter
      type99Text type99Props rfl
      (by
        intro n hn
        simp at hn
        rcases hn with rfl | rfl | rfl | rfl <;> simp [JsVal.getProp, type99Props]),
    onMessage_ignores_unknown_type (sampleHost type0Text (JsVal.obj type0Props)) quietRouter
      type0Text type0Props rfl
      (by
        intro n hn
        simp at hn
        rcases hn with rfl | rfl | rfl | rfl <;> simp [JsVal.getProp, type0Props]),
    onMessage_ignores_unknown_type (sampleHost noTypeText (JsVal.obj noTypeProps)) quietRouter
      noTypeText noTypeProps rfl
      (by
        intro n hn
        have hread : (JsVal.obj noTypeProps).getProp "msg_type" = .ok JsVal.undefined := rfl
        rw [hread]
        simp),
    onMessage_ignores_unknown_type (sampleHost stringTypeText (JsVal.obj stringTypeProps))
      quietRouter stringTypeText stringTypeProps rfl
      (by
        intro n hn
        simp [JsVal.getProp, stringTypeProps])⟩

/-- Claim C5.  Whenever the socket is absent or its state is not `OPEN`, `sendMessage`,
`sendSearchRequest` and `sendTrackDownloadRequest` throw the error `WebSocket is not
open` and leave the client as it was: nothing is handed to `send`. -/
theorem send_fails_when_not_open (host : Host) (s : SlskWebSocketClient)
    (message query ticket username filename : JsVal)
    (hclosed : ∀ ws, s.websocketClient.websocket = some ws → ws.readyState ≠ WebSocket.OPEN) :
    s.websocketClient.sendMessage host message
        = (s.websocketClient, some (Exn.error "WebSocket is not open"))
      ∧ s.sendSearchRequest host query = (s, some (Exn.error "WebSocket is not open"))
      ∧ s.sendTrackDownloadRequest host ticket username filename
        = (s, some (Exn.error "WebSocket is not open")) := by
  have hsend : ∀ m, s.websocketClient.sendMessage host m
      = (s.websocketClient, some (Exn.error "WebSocket is not open")) := by
    intro m
    unfold WebSocketClient.sendMessage
    cases hws : s.websocketClient.websocket with
    | none => rfl
    | some ws => simp [hclosed ws hws]
  refine ⟨hsend message, ?_, ?_⟩
  · simp [SlskWebSocketClient.sendSearchRequest, hsend]
  · simp [SlskWebSocketClient.sendTrackDownloadRequest, hsend]

/-- Witness for C5: a router before `connect()`, and a router after `close()` on an open
socket. -/
theorem send_fails_when_not_open_witness :
    (freshRouter.websocketClient.websocket = none
      ∧ freshRouter.websocketClient.sendMessage requestHost (JsVal.str "hello")
        = (freshRouter.websocketClient, some (Exn.error "WebSocket is not open"))
      ∧ freshRouter.sendSearchRequest requestHost (JsVal.str "foo")
        = (freshRouter, some (Exn.error "WebSocket is not open"))
      ∧ freshRouter.sendTrackDownloadRequest requestHost (JsVal.num 7) (JsVal.str "peer")
          (JsVal.str "a.flac")
        = (freshRouter, some (Exn.error "WebSocket is not open")))
    ∧ ((openRouter.close.websocketClient.websocket.map WebSocket.sent = some []
        ∧ openRouter.close.websocketClient.websocket.map WebSocket.readyState
          = some WebSocket.CLOSING)
      ∧ openRouter.close.websocketClient.sendMessage requestHost (JsVal.str "hello")
        = (openRouter.close.websocketClient, some (Exn.error "WebSocket is not open"))
      ∧ openRouter.close.sendSearchRequest requestHost (JsVal.str "foo")
        = (openRouter.close, some (Exn.error "WebSocket is not open"))
      ∧ openRouter.close.sendTrackDownloadRequest requestHost (JsVal.num 7) (JsVal.str "peer")
          (JsVal.str "a.flac")
        = (openRouter.close, some (Exn.error "WebSocket is not open"))) :=
  ⟨⟨rfl, send_fails_when_not_open requestHost freshRouter (JsVal.str "hello") (JsVal.str "foo")
      (JsVal.num 7) (JsVal.str "peer") (JsVal.str "a.flac")
      (by
        intro ws hws
        have hnone : freshRouter.websocketClient.websocket = none := rfl
        rw [hnone] at hws
        cases hws)⟩,
    ⟨⟨rfl, rfl⟩, send_fails_when_not_open requestHost openRouter.close (JsVal.str "hello")
      (JsVal.str "foo") (JsVal.num 7) (JsVal.str "peer") (JsVal.str "a.flac")
      (by
        intro ws hws
        have hstate : openRouter.close.websocketClient.websocket.map WebSocket.readyState
            = some WebSocket.CLOSING := rfl
        rw [hws] at hstate
        simp at hstate
        rw [hstate]
        decide)⟩⟩

/-- Claim C6.  For the multiplexer and for a router with its four declared lists, `on`
throws exactly when the event name is outside the registry (the four lifecycle names,
respectively the four subscriber list names); it then throws `Unknown event: <name>`
and leaves the whole client, hence every handler list, as it was. -/
theorem on_rejects_exactly_unknown_events (c : WebSocketClient) (s : SlskWebSocketClient)
    (event : String) (listener : Listener) (handler : Handler)
    (hlists : s.DeclaredLists) :
    ((c.on event listener).2.isSome ↔ event ∉ lifecycleNames)
      ∧ (event ∉ lifecycleNames →
        c.on event listener = (c, some (Exn.error ("Unknown event: " ++ event))))
      ∧ ((s.on event handler).2.isSome ↔ event ∉ subscriberListNames)
      ∧ (event ∉ subscriberListNames →
        s.on event handler = (s, some (Exn.error ("Unknown event: " ++ event)))) := by
  unfold SlskWebSocketClient.DeclaredLists at hlists
  refine ⟨?_, ?_, ?_, ?_⟩
  · by_cases h : event ∈ lifecycleNames <;>
      simp [WebSocketClient.on, webSocketClient_events_values, h]
  · intro h
    simp [WebSocketClient.on, webSocketClient_events_values, h]
  · by_cases h : event ∈ subscriberListNames <;>
      simp [SlskWebSocketClient.on, hlists, h]
  · intro h
    simp [SlskWebSocketClient.on, hlists, h]

/-- Witness for C6: the name `bogus` is rejected by both classes, the names `error` and
`slskError` are accepted. -/
theorem on_rejects_exactly_unknown_events_witness :
    (((freshRouter.websocketClient.on "bogus" (Listener.fn (quietHandler 1))).2.isSome
          ↔ "bogus" ∉ lifecycleNames)
        ∧ freshRouter.websocketClient.on "bogus" (Listener.fn (quietHandler 1))
          = (freshRouter.websocketClient, some (Exn.error "Unknown event: bogus"))
        ∧ ((freshRouter.on "bogus" (quietHandler 1)).2.isSome ↔ "bogus" ∉ subscriberListNames)
        ∧ freshRouter.on "bogus" (quietHandler 1)
          = (freshRouter, some (Exn.error "Unknown event: bogus")))
      ∧ (freshRouter.websocketClient.on "error" (Listener.fn (quietHandler 1))).2 = none
      ∧ (freshRouter.on "slskError" (quietHandler 1)).2 = none :=
  have hw := on_rejects_exactly_unknown_events freshRouter.websocketClient freshRouter "bogus"
    (Listener.fn (quietHandler 1)) (quietHandler 1) rfl
  ⟨⟨hw.1, hw.2.1 (by decide), hw.2.2.1, hw.2.2.2 (by decide)⟩, rfl, rfl⟩

/-- Claim C7.  On an open socket, `sendSearchRequest(query)` hands exactly one text to
`send`, and that text parses to the envelope with `msg_type` 1 and data `query`;
`sendTrackDownloadRequest(ticket, username, filename)` hands exactly one text to `send`,
and that text parses to the envelope with `msg_type` 2 and data `ticket`, `username`,
`filename`.  The two functions of the host are assumed to round-trip on these envelopes. -/
theorem send_writes_one_envelope (host : Host) (s : SlskWebSocketClient) (ws : WebSocket)
    (query : String) (ticket : Int) (username filename : String)
    (hws : s.websocketClient.websocket = some ws)
    (hopen : ws.readyState = WebSocket.OPEN)
    (hsearch : host.parse (host.stringify (searchRequestEnvelope query))
      = some (searchRequestEnvelope query))
    (hdownload : host.parse (host.stringify (trackDownloadRequestEnvelope ticket username filename))
      = some (trackDownloadRequestEnvelope ticket username filename)) :
    (∃ text, s.sendSearchRequest host (JsVal.str query) = (s.afterWrite ws text, none)
        ∧ host.parse text = some (searchRequestEnvelope query))
      ∧ (∃ text, s.sendTrackDownloadRequest host (JsVal.num ticket) (JsVal.str username)
            (JsVal.str filename) = (s.afterWrite ws text, none)
        ∧ host.parse text = some (trackDownloadRequestEnvelope ticket username filename)) := by
  refine ⟨⟨host.stringify (searchRequestEnvelope query), ?_, hsearch⟩,
    ⟨host.stringify (trackDownloadRequestEnvelope ticket username filename), ?_, hdownload⟩⟩
  · simp [SlskWebSocketClient.sendSearchRequest, WebSocketClient.sendMessage, hws, hopen,
      WebSocket.send, SlskWebSocketClient.afterWrite, searchRequestEnvelope,
      SlskWebSocketClient.ClientMessageTypes.SEARCH_REQUEST]
  · simp [SlskWebSocketClient.sendTrackDownloadRequest, WebSocketClient.sendMessage, hws, hopen,
      WebSocket.send, SlskWebSocketClient.afterWrite, trackDownloadRequestEnvelope,
      SlskWebSocketClient.ClientMessageTypes.TRACK_DOWNLOAD_REQUEST]

/-- Witness for C7: the requests `sendSearchRequest("foo")` and
`sendTrackDownloadRequest(7, "peer", "a.flac")` on an open socket. -/
theorem send_writes_one_envelope_witness :
    ((∃ text, openRouter.sendSearchRequest requestHost (JsVal.str "foo")
          = (openRouter.afterWrite openSocket text, none)
        ∧ requestHost.parse text = some (searchRequestEnvelope "foo"))
      ∧ (∃ text, openRouter.sendTrackDownloadRequest requestHost (JsVal.num (7 : Int))
            (JsVal.str "peer") (JsVal.str "a.flac")
          = (openRouter.afterWrite openSocket text, none)
        ∧ requestHost.parse text = some (trackDownloadRequestEnvelope 7 "peer" "a.flac")))
      ∧ (openRouter.sendSearchRequest requestHost (JsVal.str "foo")).1.websocketClient.websocket.map
          WebSocket.sent = some [searchRequestText] :=
  ⟨send_writes_one_envelope requestHost openRouter openSocket "foo" 7 "peer" "a.flac" rfl rfl
    rfl rfl, rfl⟩

/-- Claim C8, as amended.  For every well-formed inbound envelope and every router state in
which some handler of the matching list throws on the decoded record, the exception is
caught by the `try` block of `_onMessage`: `_onMessage` returns normally, the last thing
it does is to log the exception of a handler of that list, and the `message` fan-out of
the multiplexer goes on with the listeners registered after the router. -/
theorem onMessage_catches_handler_exception (host : Host) (s : SlskWebSocketClient)
    (text : String) (env d : JsVal) (k : Inbound) (a : Arg) (rest : List Listener)
    (hparse : host.parse text = some env)
    (htype : env.getProp "msg_type" = .ok (JsVal.num k.msgType))
    (hdata : env.getProp "data" = .ok d)
    (hdec : k.decode d = .ok a)
    (hthrow : ∃ g ∈ s.subscribers k.listName, g.run a ≠ none)
    (hbound : tableGet s.websocketClient.eventHandlers "message"
      = some (Listener.boundOnMessage :: rest)) :
    (s._onMessage host (Arg.messageEvent ⟨text⟩)).thrown = none
      ∧ (∃ g ∈ s.subscribers k.listName, ∃ e, g.run a = some e
        ∧ (s._onMessage host (Arg.messageEvent ⟨text⟩)).effects.getLast? = some (Effect.logged e))
      ∧ (s.websocketClient.onmessage (s._onMessage host) ⟨text⟩).thrown
        = (forEach (fun handler => Listener.call (s._onMessage host) handler
            (Arg.messageEvent ⟨text⟩)) rest).thrown := by
  obtain ⟨pre, g, post, e, hsplit, hpre, hg⟩ := exists_first_throw a _ hthrow
  have hrun := onMessage_first_throw host s text env d k a pre post g e hparse htype hdata hdec
    hsplit hpre hg
  refine ⟨by rw [hrun], ⟨g, by rw [hsplit]; simp, e, hg, by rw [hrun]; simp⟩, ?_⟩
  simp [WebSocketClient.onmessage, WebSocketClient._triggerEvent,
    WebSocketClient.Events.MESSAGE, hbound, forEach, Listener.call, hrun]

/-- Witness for C8: a fatal `ERROR` envelope, delivered to a router whose only `slskError`
subscriber throws. -/
theorem onMessage_catches_handler_exception_witness :
    (failingErrorRouter._onMessage (sampleHost fatalErrorText fatalErrorEnvelope)
        (Arg.messageEvent ⟨fatalErrorText⟩)).thrown = none
      ∧ (∃ g ∈ failingErrorRouter.subscribers Inbound.error.listName, ∃ e,
        g.run (Arg.wsError fatalError) = some e
        ∧ (failingErrorRouter._onMessage (sampleHost fatalErrorText fatalErrorEnvelope)
          (Arg.messageEvent ⟨fatalErrorText⟩)).effects.getLast? = some (Effect.logged e))
      ∧ (failingErrorRouter.websocketClient.onmessage
          (failingErrorRouter._onMessage (sampleHost fatalErrorText fatalErrorEnvelope))
          ⟨fatalErrorText⟩).thrown
        = (forEach (fun handler => Listener.call
            (failingErrorRouter._onMessage (sampleHost fatalErrorText fatalErrorEnvelope)) handler
            (Arg.messageEvent ⟨fatalErrorText⟩)) []).thrown :=
  onMessage_catches_handler_exception (sampleHost fatalErrorText fatalErrorEnvelope)
    failingErrorRouter fatalErrorText fatalErrorEnvelope fatalErrorData Inbound.error
    (Arg.wsError fatalError) [] rfl rfl rfl rfl
    ⟨throwingHandler 1, by
      have hsubs : failingErrorRouter.subscribers Inbound.error.listName = [throwingHandler 1] :=
        rfl
      rw [hsubs]
      simp, by simp [throwingHandler]⟩
    rfl

/-- Counterexample to C8 as stated: the only `slskError` subscriber throws on a well-formed
`ERROR` envelope, and yet neither `_onMessage` nor the `message` fan-out of the
multiplexer ends with an exception. -/
theorem onMessage_does_not_rethrow_handler_exception :
    (sampleHost fatalErrorText fatalErrorEnvelope).parse fatalErrorText = some fatalErrorEnvelope
      ∧ fatalErrorEnvelope.getProp "msg_type" = .ok (JsVal.num Inbound.error.msgType)
      ∧ fatalErrorEnvelope.getProp "data" = .ok fatalErrorData
      ∧ Inbound.error.decode fatalErrorData = .ok (Arg.wsError fatalError)
      ∧ (failingErrorRouter.subscribers "slskError").map Handler.tag = [1]
      ∧ (throwingHandler 1).run (Arg.wsError fatalError) = some (Exn.value (JsVal.str "boom"))
      ∧ failingErrorRouter._onMessage (sampleHost fatalErrorText fatalErrorEnvelope)
          (Arg.messageEvent ⟨fatalErrorText⟩)
        = ⟨[Effect.invoked 1 (Arg.wsError fatalError),
            Effect.logged (Exn.value (JsVal.str "boom"))], none⟩
      ∧ (failingErrorRouter.notify (sampleHost fatalErrorText fatalErrorEnvelope) "message"
          (Arg.messageEvent ⟨fatalErrorText⟩)).thrown = none :=
  ⟨rfl, rfl, rfl, rfl, rfl, rfl, rfl, rfl⟩

/-- Claim C9, as amended.  For every data object whose `resultset` is an array: when no
element is `null` (or `undefined`), `SearchResponse.fromJson` returns a record whose
five scalar properties are those of the data and whose `resultset` has the length of
the array, the element at each position being `TrackInfo.fromJson` of the element of
the array at that position; when some element is `null` (or `undefined`), decoding
throws a `TypeError`. -/
theorem searchResponse_fromJson_elementwise (props : List (String × JsVal))
    (items : List JsVal)
    (hrs : props.lookup "resultset" = some (JsVal.arr items)) :
    ((∀ x ∈ items, x.isNullish = false) →
        ∃ r, SearchResponse.fromJson (JsVal.obj props) = .ok r
          ∧ r.Mirrors (JsVal.obj props)
          ∧ r.resultset.length = items.length)
      ∧ ((∃ x ∈ items, x.isNullish = true) →
        SearchResponse.fromJson (JsVal.obj props) = .error Exn.typeError) := by
  constructor
  · intro h
    obtain ⟨ts, hts⟩ := arrayMap_fromJson_total items h
    have hdec : SearchResponse.fromJson (JsVal.obj props)
        = .ok ⟨(props.lookup "Id").getD .undefined, (props.lookup "query").getD .undefined,
            (props.lookup "ticket").getD .undefined,
            (props.lookup "total_results").getD .undefined,
            (props.lookup "current_results").getD .undefined, ts⟩ := by
      rw [searchResponse_fromJson_object]
      simp [hrs, JsVal.map, hts]
    refine ⟨_, hdec, searchResponse_mirrors_of_fromJson _ _ hdec, ?_⟩
    exact (List.Forall₂.length_eq (arrayMap_fromJson_ok items ts hts)).symm
  · intro h
    rw [searchResponse_fromJson_object]
    simp [hrs, JsVal.map, arrayMap_fromJson_nullish items h]

/-- Witness for C9: the search response of the specification decodes, and the same
result followed by `null` does not. -/
theorem searchResponse_fromJson_elementwise_witness :
    (SearchResponse.fromJson (JsVal.obj sampleSearchProps) = .ok sampleSearchResponse
        ∧ sampleSearchResponse.Mirrors (JsVal.obj sampleSearchProps)
        ∧ sampleSearchResponse.resultset.length = [sampleTrackJson].length)
      ∧ SearchResponse.fromJson (JsVal.obj [("resultset", JsVal.arr [sampleTrackJson, JsVal.null])])
        = .error Exn.typeError := by
  obtain ⟨r, hr, hmirror, hlength⟩ :=
    (searchResponse_fromJson_elementwise sampleSearchProps [sampleTrackJson] rfl).1
      (by
        intro x hx
        simp at hx
        subst hx
        rfl)
  have hvalue : SearchResponse.fromJson (JsVal.obj sampleSearchProps)
      = .ok sampleSearchResponse := rfl
  have hsame : r = sampleSearchResponse := by
    rw [hr] at hvalue
    exact Except.ok.inj hvalue
  subst hsame
  exact ⟨⟨hr, hmirror, hlength⟩,
    (searchResponse_fromJson_elementwise [("resultset", JsVal.arr [sampleTrackJson, JsVal.null])]
      [sampleTrackJson, JsVal.null] rfl).2 ⟨JsVal.null, by simp, rfl⟩⟩

/-- Counterexample to C9 as stated: the element `5` of a `resultset` is not a JSON object,
and decoding does not fail; the element becomes a record without any property. -/
theorem searchResponse_fromJson_accepts_non_object_element :
    (JsVal.num 5).isObject = false
      ∧ numberElementData.getProp "resultset" = .ok (JsVal.arr [JsVal.num 5])
      ∧ TrackInfo.fromJson (JsVal.num 5) = .ok emptyTrack
      ∧ SearchResponse.fromJson numberElementData
        = .ok { Id := JsVal.str "x", query := .undefined, ticket := .undefined,
                total_results := .undefined, current_results := .undefined,
                resultset := [emptyTrack] } :=
  ⟨rfl, rfl, rfl, rfl⟩

/-- Claim C10, as amended.  For every JSON object `d`, `TrackInfo.fromJson(d)` does not fail,
and each of the twelve properties of the record is the value of `d` under the same key,
or `undefined` when `d` lacks the key.  A `TRACK_INFO` envelope with such data is
delivered to every `trackInfo` subscriber when none of them throws on the record, and
in any case to every subscriber before which no subscriber throws. -/
theorem trackInfo_fromJson_total_and_delivered (props : List (String × JsVal)) :
    ∃ r, TrackInfo.fromJson (JsVal.obj props) = .ok r
      ∧ (∀ kf ∈ TrackInfo.fields, kf.2 r = (props.lookup kf.1).getD JsVal.undefined)
      ∧ ∀ (host : Host) (s : SlskWebSocketClient) (text : String) (env : JsVal),
        host.parse text = some env →
        env.getProp "msg_type" = .ok (JsVal.num 1) →
        env.getProp "data" = .ok (JsVal.obj props) →
        ((∀ h ∈ s.subscribers "trackInfo", h.run (Arg.trackInfo r) = none) →
            s._onMessage host (Arg.messageEvent ⟨text⟩)
              = ⟨fanOut (s.subscribers "trackInfo") (Arg.trackInfo r), none⟩)
          ∧ (∀ pre g post, s.subscribers "trackInfo" = pre ++ g :: post →
            (∀ x ∈ pre, x.run (Arg.trackInfo r) = none) →
            Effect.invoked g.tag (Arg.trackInfo r)
              ∈ (s._onMessage host (Arg.messageEvent ⟨text⟩)).effects) := by
  obtain ⟨r, hr⟩ : ∃ r, TrackInfo.fromJson (JsVal.obj props) = .ok r :=
    ⟨_, trackInfo_fromJson_object props⟩
  refine ⟨r, hr, ?_, ?_⟩
  · have hr2 := hr
    rw [trackInfo_fromJson_object] at hr2
    injection hr2 with hr2
    subst hr2
    simp [TrackInfo.fields]
  · intro host s text env hparse htype hdata
    have hdec : Inbound.trackInfo.decode (JsVal.obj props) = .ok (Arg.trackInfo r) := by
      simp only [Inbound.decode, hr]
      rfl
    have hrun : s._onMessage host (Arg.messageEvent ⟨text⟩)
        = Run.catchLog (forEach (fun handler => handler.call (Arg.trackInfo r))
            (s.subscribers "trackInfo")) := by
      rw [onMessage_of_parsed host s text env hparse,
        onMessageTry_decoded s env _ Inbound.trackInfo _ htype hdata hdec]
      rfl
    constructor
    · intro hret
      rw [hrun, forEach_all_return _ _ hret]
      rfl
    · intro pre g post hsplit hpre
      rw [hrun, hsplit]
      exact mem_catchLog _ _ (forEach_reaches _ pre post g hpre)

/-- Witness for C10: data with the key `Id` only, delivered to two quiet subscribers, and
to a first subscriber that throws. -/
theorem trackInfo_fromJson_total_and_delivered_witness :
    TrackInfo.fromJson (JsVal.obj sparseTrackProps) = .ok sparseTrack
      ∧ (∀ kf ∈ TrackInfo.fields,
        kf.2 sparseTrack = (sparseTrackProps.lookup kf.1).getD JsVal.undefined)
      ∧ quietTrackRouter._onMessage (sampleHost sparseTrackText sparseTrackEnvelope)
          (Arg.messageEvent ⟨sparseTrackText⟩)
        = ⟨[Effect.invoked 1 (Arg.trackInfo sparseTrack),
            Effect.invoked 2 (Arg.trackInfo sparseTrack)], none⟩
      ∧ Effect.invoked 1 (Arg.trackInfo sparseTrack)
        ∈ (attributeRouter._onMessage (sampleHost sparseTrackText sparseTrackEnvelope)
          (Arg.messageEvent ⟨sparseTrackText⟩)).effects := by
  obtain ⟨r, hr, hfields, hdeliver⟩ := trackInfo_fromJson_total_and_delivered sparseTrackProps
  have hvalue : TrackInfo.fromJson (JsVal.obj sparseTrackProps) = .ok sparseTrack := rfl
  have hsame : r = sparseTrack := by
    rw [hr] at hvalue
    exact Except.ok.inj hvalue
  subst hsame
  refine ⟨hr, hfields, ?_, ?_⟩
  · exact (hdeliver (sampleHost sparseTrackText sparseTrackEnvelope) quietTrackRouter
      sparseTrackText sparseTrackEnvelope rfl rfl rfl).1
      (by
        intro h hh
        have hsubs : quietTrackRouter.subscribers "trackInfo"
            = [quietHandler 1, quietHandler 2] := rfl
        rw [hsubs] at hh
        simp at hh
        rcases hh with rfl | rfl <;> rfl)
  · exact (hdeliver (sampleHost sparseTrackText sparseTrackEnvelope) attributeRouter
      sparseTrackText sparseTrackEnvelope rfl rfl rfl).2 [] (attributeReader 1) [quietHandler 2]
      rfl (by simp)

/-- Counterexample to C10 as stated: the data lacks `attributes`, the first `trackInfo`
subscriber reads a property of the attributes and throws, and the second subscriber is
never called with the message. -/
theorem onMessage_sparse_track_misses_later_subscriber :
    (sampleHost sparseTrackText sparseTrackEnvelope).parse sparseTrackText
        = some sparseTrackEnvelope
      ∧ sparseTrackEnvelope.getProp "msg_type" = .ok (JsVal.num 1)
      ∧ sparseTrackEnvelope.getProp "data" = .ok (JsVal.obj sparseTrackProps)
      ∧ TrackInfo.fromJson (JsVal.obj sparseTrackProps) = .ok sparseTrack
      ∧ (attributeRouter.subscribers "trackInfo").map Handler.tag = [1, 2]
      ∧ attributeRouter._onMessage (sampleHost sparseTrackText sparseTrackEnvelope)
          (Arg.messageEvent ⟨sparseTrackText⟩)
        = ⟨[Effect.invoked 1 (Arg.trackInfo sparseTrack), Effect.logged Exn.typeError], none⟩
      ∧ invokedTags (attributeRouter._onMessage (sampleHost sparseTrackText sparseTrackEnvelope)
          (Arg.messageEvent ⟨sparseTrackText⟩)).effects = [1] :=
  ⟨rfl, rfl, rfl, rfl, rfl, rfl, rfl⟩

/-- Claim C11, as amended.  For every sequence of registrations with `on` on a new
multiplexer and every transport notification, when no handler registered for the event
of the notification throws on its payload: the notification calls exactly the handlers
registered for that event, once for each registration, in registration order, each with
the payload of the notification; a handler that is registered for other events only is
not called, and the callback returns normally. -/
theorem deliver_invokes_registered (url : String) (regs : List (String × Handler))
    (bound : Arg → Run) (n : Notification)
    (hret : ∀ h ∈ registeredFor regs n.eventName, h.run n.payload = none) :
    ((WebSocketClient.constructor url).registerAll regs).deliver bound n
      = ⟨fanOut (registeredFor regs n.eventName) n.payload, none⟩ := by
  rw [deliver_eq_triggerEvent, mux_triggerEvent_eq,
    listeners_registerAll _ regs _ (notification_eventName_mem n)]
  have hempty : (WebSocketClient.constructor url).listeners n.eventName = [] := rfl
  rw [hempty, List.nil_append, forEach_listeners_all_return, callsOf_fn]
  intro l hl
  obtain ⟨h, hh, rfl⟩ := List.mem_map.mp hl
  exact hret h hh

/-- Witness for C11: with `quietRegistrations`, the notification that the socket opened
calls handler 1, handler 2 and handler 1 again, and not handler 3. -/
theorem deliver_invokes_registered_witness :
    ((WebSocketClient.constructor "ws://localhost").registerAll quietRegistrations).deliver
        (fun _ => Run.done) Notification.opened
      = ⟨[Effect.invoked 1 Arg.undefined, Effect.invoked 2 Arg.undefined,
          Effect.invoked 1 Arg.undefined], none⟩ :=
  deliver_invokes_registered "ws://localhost" quietRegistrations (fun _ => Run.done)
    Notification.opened
    (by
      intro h hh
      have hregs : registeredFor quietRegistrations Notification.opened.eventName
          = [quietHandler 1, quietHandler 2, quietHandler 1] := rfl
      rw [hregs] at hh
      simp at hh
      rcases hh with rfl | rfl | rfl <;> rfl)

/-- Counterexample to C11 as stated: handler 1, registered for `open`, throws; handler
2, registered for `open` after it, is not called when the socket opens, and the
exception leaves the callback. -/
theorem deliver_skips_handlers_after_a_throw :
    (registeredFor throwingRegistrations "open").map Handler.tag = [1, 2]
      ∧ ((WebSocketClient.constructor "ws://localhost").registerAll throwingRegistrations).deliver
          (fun _ => Run.done) Notification.opened
        = ⟨[Effect.invoked 1 Arg.undefined], some (Exn.value (JsVal.str "boom"))⟩
      ∧ ((WebSocketClient.constructor "ws://localhost").registerAll throwingRegistrations).deliver
          (fun _ => Run.done) Notification.opened
        ≠ ⟨fanOut (registeredFor throwingRegistrations "open") Arg.undefined, none⟩ := by
  refine ⟨rfl, rfl, ?_⟩
  intro h
  have h2 := congrArg (fun r => invokedTags r.effects) h
  revert h2
  decide

/-- Claim C12.  For every handler and every router state reachable from construction,
each of `onSearchResponse`, `onTrackInfo`, `onTrackDownloadResponse` and `onError`
succeeds and appends the handler to the end of its own list (`searchResponse`,
`trackInfo`, `trackDownloadResponse`, `slskError`), leaving the earlier entries of that
list, every other list and the multiplexer unchanged. -/
theorem convenience_methods_append (s : SlskWebSocketClient) (handler : Handler)
    (hreach : s.Reachable) :
    AppendsTo "searchResponse" handler s (s.onSearchResponse handler)
      ∧ AppendsTo "trackInfo" handler s (s.onTrackInfo handler)
      ∧ AppendsTo "trackDownloadResponse" handler s (s.onTrackDownloadResponse handler)
      ∧ AppendsTo "slskError" handler s (s.onError handler) := by
  have hlists := declaredLists_of_reachable s hreach
  exact ⟨on_appends s _ handler hlists (by decide), on_appends s _ handler hlists (by decide),
    on_appends s _ handler hlists (by decide), on_appends s _ handler hlists (by decide)⟩

/-- Witness for C12: the four registrations on a router that already has two
subscribers for search responses. -/
theorem convenience_methods_append_witness :
    quietRouter.Reachable
      ∧ AppendsTo "searchResponse" (quietHandler 3) quietRouter
        (quietRouter.onSearchResponse (quietHandler 3))
      ∧ AppendsTo "trackInfo" (quietHandler 3) quietRouter
        (quietRouter.onTrackInfo (quietHandler 3))
      ∧ AppendsTo "trackDownloadResponse" (quietHandler 3) quietRouter
        (quietRouter.onTrackDownloadResponse (quietHandler 3))
      ∧ AppendsTo "slskError" (quietHandler 3) quietRouter
        (quietRouter.onError (quietHandler 3)) :=
  have hreach : quietRouter.Reachable :=
    SlskWebSocketClient.Reachable.registered _ "searchResponse" (quietHandler 2)
      (SlskWebSocketClient.Reachable.registered _ "searchResponse" (quietHandler 1)
        (SlskWebSocketClient.Reachable.constructed "ws://localhost"))
  ⟨hreach, convenience_methods_append quietRouter (quietHandler 3) hreach⟩

/-- Claim C13.  A transport error notification, that is the callback `onerror`, calls
registered error handlers of the multiplexer only, each with the error object as it
came, all of them when they are functions that return; it calls no subscriber of the
router, whatever the subscriber lists hold.  An inbound `ERROR` envelope is delivered
to the `slskError` subscribers of the router, each called with the decoded `WsError`
record: to all of them when none throws, and always to those before which none throws;
nothing else is called by `_onMessage`, and the callback `onmessage` that carries the
envelope takes the same course whatever error handlers the multiplexer holds. -/
theorem error_channels_are_separate (host : Host) (s : SlskWebSocketClient) (code : Nat)
    (text : String) :
    (∀ eff ∈ (s.websocketClient.onerror (s._onMessage host) (Arg.errorEvent code)).effects,
        ∃ h, Listener.fn h ∈ s.websocketClient.listeners "error"
          ∧ eff = Effect.invoked h.tag (Arg.errorEvent code))
      ∧ (∀ hs : List Handler, s.websocketClient.listeners "error" = hs.map Listener.fn →
        (∀ h ∈ hs, h.run (Arg.errorEvent code) = none) →
        s.websocketClient.onerror (s._onMessage host) (Arg.errorEvent code)
          = ⟨fanOut hs (Arg.errorEvent code), none⟩)
      ∧ (∀ lists : List (String × List Handler),
        s.websocketClient.onerror
            (SlskWebSocketClient._onMessage host { s with eventHandlers := lists })
            (Arg.errorEvent code)
          = s.websocketClient.onerror (s._onMessage host) (Arg.errorEvent code))
      ∧ (∀ (env d : JsVal) (r : WsError), host.parse text = some env →
        env.getProp "msg_type" = .ok (JsVal.num 4) →
        env.getProp "data" = .ok d →
        WsError.fromJson d = .ok r →
        (∀ eff ∈ (s._onMessage host (Arg.messageEvent ⟨text⟩)).effects,
            (∃ h ∈ s.subscribers "slskError", eff = Effect.invoked h.tag (Arg.wsError r))
              ∨ ∃ e, eff = Effect.logged e)
          ∧ ((∀ h ∈ s.subscribers "slskError", h.run (Arg.wsError r) = none) →
            s._onMessage host (Arg.messageEvent ⟨text⟩)
              = ⟨fanOut (s.subscribers "slskError") (Arg.wsError r), none⟩)
          ∧ (∀ pre g post, s.subscribers "slskError" = pre ++ g :: post →
            (∀ x ∈ pre, x.run (Arg.wsError r) = none) →
            Effect.invoked g.tag (Arg.wsError r)
              ∈ (s._onMessage host (Arg.messageEvent ⟨text⟩)).effects)
          ∧ (∀ rest : List Listener,
            s.websocketClient.listeners "message" = Listener.boundOnMessage :: rest →
            (∀ h ∈ s.subscribers "slskError", h.run (Arg.wsError r) = none) →
            s.websocketClient.onmessage (s._onMessage host) ⟨text⟩
              = ⟨fanOut (s.subscribers "slskError") (Arg.wsError r)
                  ++ (forEach (fun handler => Listener.call (s._onMessage host) handler
                      (Arg.messageEvent ⟨text⟩)) rest).effects,
                (forEach (fun handler => Listener.call (s._onMessage host) handler
                  (Arg.messageEvent ⟨text⟩)) rest).thrown⟩))
      ∧ (∀ ls : List Listener,
        WebSocketClient.onmessage
            (SlskWebSocketClient._onMessage host
              { s with
                websocketClient :=
                  { s.websocketClient with
                    eventHandlers := tableSet s.websocketClient.eventHandlers "error" ls } })
            { s.websocketClient with
              eventHandlers := tableSet s.websocketClient.eventHandlers "error" ls }
            ⟨text⟩
          = s.websocketClient.onmessage (s._onMessage host) ⟨text⟩) := by
  refine ⟨?_, ?_, ?_, ?_, ?_⟩
  · intro eff heff
    rw [WebSocketClient.onerror, WebSocketClient.Events.ERROR, mux_triggerEvent_eq] at heff
    obtain ⟨l, hl, hcall⟩ := forEach_effect_mem _ _ _ heff
    cases l with
    | fn h =>
      refine ⟨h, hl, ?_⟩
      simpa [Listener.call, Handler.call] using hcall
    | boundOnMessage =>
      simp [Listener.call, SlskWebSocketClient._onMessage, Run.throw] at hcall
  · intro hs herr hret
    rw [WebSocketClient.onerror, WebSocketClient.Events.ERROR, mux_triggerEvent_eq, herr,
      forEach_listeners_all_return, callsOf_fn]
    intro l hl
    obtain ⟨h, hh, rfl⟩ := List.mem_map.mp hl
    exact hret h hh
  · intro lists
    simp only [WebSocketClient.onerror, mux_triggerEvent_eq]
    have hcall : (fun handler => Listener.call
          (SlskWebSocketClient._onMessage host { s with eventHandlers := lists }) handler
          (Arg.errorEvent code))
        = fun handler => Listener.call (s._onMessage host) handler (Arg.errorEvent code) := by
      funext handler
      cases handler <;> rfl
    rw [hcall]
  · intro env d r hparse htype hdata hdec
    have hdecode : Inbound.error.decode d = .ok (Arg.wsError r) := by
      simp [Inbound.decode, hdec, Except.map]
    have hrun : s._onMessage host (Arg.messageEvent ⟨text⟩)
        = Run.catchLog (forEach (fun handler => handler.call (Arg.wsError r))
            (s.subscribers "slskError")) := by
      rw [onMessage_of_parsed host s text env hparse,
        onMessageTry_decoded s env d Inbound.error (Arg.wsError r) htype hdata hdecode]
      rfl
    have hall : (∀ h ∈ s.subscribers "slskError", h.run (Arg.wsError r) = none) →
        s._onMessage host (Arg.messageEvent ⟨text⟩)
          = ⟨fanOut (s.subscribers "slskError") (Arg.wsError r), none⟩ := by
      intro hret
      rw [hrun, forEach_all_return _ _ hret]
      rfl
    refine ⟨?_, hall, ?_, ?_⟩
    · intro eff heff
      rw [hrun] at heff
      rcases mem_catchLog_cases _ _ heff with hmem | hlog
      · obtain ⟨h, hh, hcall⟩ := forEach_effect_mem _ _ _ hmem
        refine Or.inl ⟨h, hh, ?_⟩
        simpa [Handler.call] using hcall
      · exact Or.inr hlog
    · intro pre g post hsplit hpre
      rw [hrun, hsplit]
      exact mem_catchLog _ _ (forEach_reaches _ pre post g hpre)
    · intro rest hbound hret
      rw [WebSocketClient.onmessage, WebSocketClient.Events.MESSAGE, mux_triggerEvent_eq,
        hbound, forEach]
      simp only [Listener.call, hall hret]
  · intro ls
    simp only [WebSocketClient.onmessage, WebSocketClient.Events.MESSAGE, mux_triggerEvent_eq,
      WebSocketClient.listeners]
    rw [tableGet_tableSet_other _ "error" "message" ls (by decide)]
    rfl

/-- Witness for C13: on a router with handler 5 for transport errors and handler 1 for
server errors, the callback `onerror` calls handler 5 with the error object, and a
fatal `ERROR` envelope, in `_onMessage` and through the callback `onmessage`, calls
handler 1 with the record. -/
theorem error_channels_are_separate_witness :
    twoChannelRouter.websocketClient.onerror
        (twoChannelRouter._onMessage (sampleHost fatalErrorText fatalErrorEnvelope))
        (Arg.errorEvent 7)
      = ⟨[Effect.invoked 5 (Arg.errorEvent 7)], none⟩
      ∧ twoChannelRouter._onMessage (sampleHost fatalErrorText fatalErrorEnvelope)
          (Arg.messageEvent ⟨fatalErrorText⟩)
        = ⟨[Effect.invoked 1 (Arg.wsError fatalError)], none⟩
      ∧ twoChannelRouter.websocketClient.onmessage
          (twoChannelRouter._onMessage (sampleHost fatalErrorText fatalErrorEnvelope))
          ⟨fatalErrorText⟩
        = ⟨[Effect.invoked 1 (Arg.wsError fatalError)], none⟩ :=
  have hw := error_channels_are_separate (sampleHost fatalErrorText fatalErrorEnvelope)
    twoChannelRouter 7 fatalErrorText
  have hquiet : ∀ h ∈ twoChannelRouter.subscribers "slskError",
      h.run (Arg.wsError fatalError) = none := by
    intro h hh
    have hsubs : twoChannelRouter.subscribers "slskError" = [quietHandler 1] := rfl
    rw [hsubs] at hh
    simp at hh
    subst hh
    rfl
  have hb := hw.2.2.2.1 fatalErrorEnvelope fatalErrorData fatalError rfl rfl rfl rfl
  ⟨hw.2.1 [quietHandler 5] rfl
      (by
        intro h hh
        simp at hh
        subst hh
        rfl),
    hb.2.1 hquiet, hb.2.2.2 [] rfl hquiet⟩

/-- Claim C14.  `close()` without a socket throws nothing and leaves the client as it
was; with a socket it calls `close` of the socket once and changes nothing else.  In
both cases the call itself has no effect on handlers: it calls none, it leaves the
handler lists as they were, and the handlers for `close` run when the transport
notifies the closure, exactly as they would have run without the call. -/
theorem close_requests_closure_only (bound : Arg → Run) (c : WebSocketClient) :
    (c.websocket = none → c.closeStep = (c, Run.done))
      ∧ (∀ ws, c.websocket = some ws →
        c.closeStep = ({ c with websocket := some ws.close }, Run.done)
          ∧ ws.close.closeCalls = ws.closeCalls + 1
          ∧ ws.close.sent = ws.sent)
      ∧ c.closeStep.2.effects = []
      ∧ c.closeStep.2.thrown = none
      ∧ c.closeStep.1.eventHandlers = c.eventHandlers
      ∧ c.closeStep.1.deliver bound Notification.closed = c.deliver bound Notification.closed := by
  have hkeep : c.close.eventHandlers = c.eventHandlers := by
    unfold WebSocketClient.close
    cases c.websocket <;> rfl
  refine ⟨?_, ?_, rfl, rfl, hkeep, ?_⟩
  · intro h
    simp [WebSocketClient.closeStep, WebSocketClient.close, h]
  · intro ws h
    simp [WebSocketClient.closeStep, WebSocketClient.close, h, WebSocket.close]
  · simp only [WebSocketClient.closeStep, deliver_eq_triggerEvent, mux_triggerEvent_eq,
      WebSocketClient.listeners, hkeep]

/-- Witness for C14: `close()` before `connect()`, and `close()` on an open socket
with three handlers for `close`, which run when the closure is notified. -/
theorem close_requests_closure_only_witness :
    (WebSocketClient.constructor "ws://localhost").closeStep
        = (WebSocketClient.constructor "ws://localhost", Run.done)
      ∧ (openMultiplexer.closeStep
          = ({ openMultiplexer with websocket := some openSocket.close }, Run.done)
        ∧ openSocket.close.closeCalls = openSocket.closeCalls + 1
        ∧ openSocket.close.sent = openSocket.sent)
      ∧ openSocket.close.readyState = WebSocket.CLOSING
      ∧ openMultiplexer.closeStep.1.deliver (fun _ => Run.done) Notification.closed
        = ⟨[Effect.invoked 1 Arg.undefined, Effect.invoked 2 Arg.undefined],
            some (Exn.value (JsVal.str "boom"))⟩ :=
  ⟨(close_requests_closure_only (fun _ => Run.done)
      (WebSocketClient.constructor "ws://localhost")).1 rfl,
    (close_requests_closure_only (fun _ => Run.done) openMultiplexer).2.1 openSocket rfl,
    rfl, rfl⟩

/-- Claim C15.  For every inbound message, of any `msg_type` and with any `fatal`
flag, and for handlers that do not change the client themselves: the client after
`_onMessage` is the client before it, with the same four subscriber lists, the same
handler lists of the multiplexer and the same socket; no text was handed to `send` and
`close` was not called.  The course of the call is that of `_onMessage`. -/
theorem onMessage_leaves_client_unchanged (host : Host) (mutate : Mutation)
    (s : SlskWebSocketClient) (event : Arg)
    (hpure : ∀ hs ∈ tableValues s.eventHandlers, ∀ g ∈ hs, ∀ a, mutate g.tag a s = s) :
    (s.onMessageOn host mutate event).1 = s
      ∧ (s.onMessageOn host mutate event).1.eventHandlers = s.eventHandlers
      ∧ (s.onMessageOn host mutate event).1.websocketClient.eventHandlers
        = s.websocketClient.eventHandlers
      ∧ (s.onMessageOn host mutate event).1.websocketClient.websocket
        = s.websocketClient.websocket
      ∧ (s.onMessageOn host mutate event).2 = s._onMessage host event := by
  have hclient : (s.onMessageOn host mutate event).1 = s := by
    unfold SlskWebSocketClient.onMessageOn
    split
    · rfl
    · split
      · rfl
      · exact onMessageTryOn_client mutate s _ hpure
    · rfl
  refine ⟨hclient, by rw [hclient], by rw [hclient], by rw [hclient], ?_⟩
  unfold SlskWebSocketClient.onMessageOn SlskWebSocketClient._onMessage
  split
  · rfl
  · split
    · rfl
    · simp only [onMessageTryOn_run]
  · rfl

/-- Witness for C15: a fatal `ERROR` envelope, delivered to a router with an open
socket and a quiet subscriber. -/
theorem onMessage_leaves_client_unchanged_witness :
    ((openErrorRouter.onMessageOn (sampleHost fatalErrorText fatalErrorEnvelope) closingMutation
        (Arg.messageEvent ⟨fatalErrorText⟩)).1 = openErrorRouter
      ∧ (openErrorRouter.onMessageOn (sampleHost fatalErrorText fatalErrorEnvelope)
          closingMutation (Arg.messageEvent ⟨fatalErrorText⟩)).1.eventHandlers
        = openErrorRouter.eventHandlers
      ∧ (openErrorRouter.onMessageOn (sampleHost fatalErrorText fatalErrorEnvelope)
          closingMutation (Arg.messageEvent ⟨fatalErrorText⟩)).1.websocketClient.eventHandlers
        = openErrorRouter.websocketClient.eventHandlers
      ∧ (openErrorRouter.onMessageOn (sampleHost fatalErrorText fatalErrorEnvelope)
          closingMutation (Arg.messageEvent ⟨fatalErrorText⟩)).1.websocketClient.websocket
        = openErrorRouter.websocketClient.websocket
      ∧ (openErrorRouter.onMessageOn (sampleHost fatalErrorText fatalErrorEnvelope)
          closingMutation (Arg.messageEvent ⟨fatalErrorText⟩)).2
        = openErrorRouter._onMessage (sampleHost fatalErrorText fatalErrorEnvelope)
          (Arg.messageEvent ⟨fatalErrorText⟩))
      ∧ openErrorRouter.websocketClient.websocket = some openSocket
      ∧ openErrorRouter._onMessage (sampleHost fatalErrorText fatalErrorEnvelope)
          (Arg.messageEvent ⟨fatalErrorText⟩)
        = ⟨[Effect.invoked 1 (Arg.wsError fatalError)], none⟩ :=
  ⟨onMessage_leaves_client_unchanged (sampleHost fatalErrorText fatalErrorEnvelope)
      closingMutation openErrorRouter (Arg.messageEvent ⟨fatalErrorText⟩)
      (by
        intro hs hhs g hg a
        have hvalues : tableValues openErrorRouter.eventHandlers
            = [[], [], [], [quietHandler 1]] := rfl
        rw [hvalues] at hhs
        simp at hhs
        rcases hhs with rfl | rfl
        · cases hg
        · simp at hg
          subst hg
          rfl),
    rfl, rfl⟩

/-- Claim C16.  In the multiplexer, when the listeners of an event are `pre`, then the
function `g`, then `post`, the listeners in `pre` return and `g` throws `e`: the
exception `e` leaves `_triggerEvent` uncaught, every listener of `pre` has been called
once and `g` has been called, and no listener of `post` is called. -/
theorem triggerEvent_stops_at_throwing_handler (bound : Arg → Run) (c : WebSocketClient)
    (event : String) (data : Arg) (pre post : List Listener) (g : Handler) (e : Exn)
    (hlist : tableGet c.eventHandlers event = some (pre ++ Listener.fn g :: post))
    (hpre : ∀ l ∈ pre, (l.call bound data).thrown = none)
    (hg : g.run data = some e) :
    c._triggerEvent bound event data
      = ⟨callsOf bound data pre ++ [Effect.invoked g.tag data], some e⟩ := by
  have hlisteners : c.listeners event = pre ++ Listener.fn g :: post := by
    simp [WebSocketClient.listeners, hlist]
  rw [mux_triggerEvent_eq, hlisteners,
    forEach_listeners_first_throw bound data pre post (Listener.fn g) e hpre hg]
  rfl

/-- Witness for C16: of three handlers for `close` the second throws; the closure
notification calls the first two and ends with the exception. -/
theorem triggerEvent_stops_at_throwing_handler_witness :
    closeMultiplexer._triggerEvent (fun _ => Run.done) "close" Arg.undefined
      = ⟨[Effect.invoked 1 Arg.undefined, Effect.invoked 2 Arg.undefined],
          some (Exn.value (JsVal.str "boom"))⟩ :=
  triggerEvent_stops_at_throwing_handler (fun _ => Run.done) closeMultiplexer "close"
    Arg.undefined [Listener.fn (quietHandler 1)] [Listener.fn (quietHandler 3)]
    (throwingHandler 2) (Exn.value (JsVal.str "boom")) rfl
    (by
      intro l hl
      simp at hl
      subst hl
      rfl)
    rfl

/-- Claim C17.  In the fan-out of the router for a well-formed inbound envelope, when the
matching list is `pre`, then `g`, then `post`, the handlers of `pre` return and `g`
throws `e`: every handler of `pre` and then `g` has been called once with the decoded
record, no handler of `post` is called, the exception is logged, and `_onMessage`
returns normally. -/
theorem onMessage_stops_at_throwing_subscriber (host : Host) (s : SlskWebSocketClient)
    (text : String) (env d : JsVal) (k : Inbound) (a : Arg)
    (pre post : List Handler) (g : Handler) (e : Exn)
    (hparse : host.parse text = some env)
    (htype : env.getProp "msg_type" = .ok (JsVal.num k.msgType))
    (hdata : env.getProp "data" = .ok d)
    (hdec : k.decode d = .ok a)
    (hsplit : s.subscribers k.listName = pre ++ g :: post)
    (hpre : ∀ x ∈ pre, x.run a = none)
    (hg : g.run a = some e) :
    s._onMessage host (Arg.messageEvent ⟨text⟩)
        = ⟨fanOut pre a ++ [Effect.invoked g.tag a, Effect.logged e], none⟩
      ∧ invokedTags (s._onMessage host (Arg.messageEvent ⟨text⟩)).effects
        = (pre ++ [g]).map Handler.tag := by
  have hrun := onMessage_first_throw host s text env d k a pre post g e hparse htype hdata hdec
    hsplit hpre hg
  refine ⟨?_, ?_⟩
  · rw [hrun]
    simp [fanOut]
  · rw [hrun]
    exact invokedTags_fanOut_logged (pre ++ [g]) a e

/-- Witness for C17: the first of two subscribers for search responses throws. -/
theorem onMessage_stops_at_throwing_subscriber_witness :
    throwingRouter._onMessage searchHost (Arg.messageEvent ⟨sampleSearchText⟩)
        = ⟨[Effect.invoked 1 (Arg.searchResponse sampleSearchResponse),
            Effect.logged (Exn.value (JsVal.str "boom"))], none⟩
      ∧ invokedTags (throwingRouter._onMessage searchHost
          (Arg.messageEvent ⟨sampleSearchText⟩)).effects = [1] :=
  onMessage_stops_at_throwing_subscriber searchHost throwingRouter sampleSearchText
    sampleSearchEnvelope sampleSearchData Inbound.searchResponse
    (Arg.searchResponse sampleSearchResponse) [] [quietHandler 2] (throwingHandler 1)
    (Exn.value (JsVal.str "boom")) rfl rfl rfl rfl rfl (by simp) rfl

end SlskFront
